import Mathlib

/-!
# Tutorial 1 (OpenCL host program): embedding of `Tutorial 1.cpp`

The host program is a straight-line pipeline around the OpenCL C++ bindings and the
helpers of `Utils.h`.  Neither the bindings, nor `Utils.h`, nor the device source
`kernels/my_kernels.cl` are part of the source file, so every answer they give is read
from a `Runtime` value that the embedding takes as a parameter.

* An output statement `std::cout << a << b << std::endl` is one `Event.out [a, b]`:
  the list of the values inserted into the stream, in order.
* A call into the OpenCL runtime is one `Event.call`; a call that the bindings may
  answer by throwing `cl::Error` consults `Runtime.fails`.
* `main` returns the process exit status together with the trace of events.
-/

namespace Tutorial1

/-! ## C library: `atoi` -/

def INT_MAX : Int := 2147483647

def INT_MIN : Int := -2147483648

/-- C `isspace` in the "C" locale: space, `\t`, `\n`, `\v`, `\f`, `\r`. -/
def isspace (c : Char) : Bool :=
  c = ' ' || c = '\t' || c = '\n' || c = Char.ofNat 11 || c = Char.ofNat 12 || c = '\r'

/-- Value of the longest run of decimal digits at the head of the input. -/
def digitsValue : List Char → Nat → Nat
  | [], acc => acc
  | c :: cs, acc => if c.isDigit then digitsValue cs (acc * 10 + (c.toNat - 48)) else acc

/-- Saturation of a value to the range of `int`. -/
def clampInt (v : Int) : Int :=
  if v < INT_MIN then INT_MIN else if INT_MAX < v then INT_MAX else v

/-- C `atoi`: skip leading white space, read an optional sign and the decimal digits
that follow, stop at the first other character (no digits gives 0).  A value outside
`int` is undefined behaviour in ISO C; here it saturates, as the Microsoft C runtime
documents for the toolchain this project is built with. -/
def atoi (s : String) : Int :=
  match s.toList.dropWhile isspace with
  | '-' :: ds => clampInt (-(digitsValue ds 0 : Int))
  | '+' :: ds => clampInt (digitsValue ds 0)
  | ds => clampInt (digitsValue ds 0)

/-- Reduction of an integer to the 32-bit two's complement range. -/
def wrap32 (v : Int) : Int := (v + 2147483648) % 4294967296 - 2147483648

/-! ## Data model -/

/-- A `cl::Error`: the name of the failing API call and the OpenCL error code. -/
structure ClError where
  what : String
  err : Int
deriving DecidableEq, Repr

/-- The three device buffers `buffer_A`, `buffer_B`, `buffer_C`. -/
inductive Buf
  | A
  | B
  | C
deriving DecidableEq, Repr

/-- A `cl::Kernel` object: entry-point name and the arguments latched by `setArg`,
as (index, buffer) pairs in increasing order of binding time. -/
structure Kernel where
  name : String
  args : List (Nat × Buf)
deriving DecidableEq, Repr

/-- Calls into the OpenCL runtime made by `main` (through `cl.hpp` or `Utils.h`). -/
inductive Call
  | ListPlatformsDevices
  | GetContext (platform_id device_id : Int)
  | createQueue (profiling : Bool)
  | AddSources (path : String)
  | createProgram
  | build
  | createBuffer (b : Buf) (bytes : Nat)
  | enqueueWriteBuffer (b : Buf) (blocking : Bool) (offset bytes : Nat) (host : List Int)
  | createKernel (name : String)
  | setArg (k : Kernel) (index : Nat) (b : Buf)
  | enqueueNDRangeKernel (k : Kernel) (global : Nat)
  | enqueueReadBuffer (b : Buf) (blocking : Bool) (offset bytes : Nat)
deriving DecidableEq, Repr

/-- A value inserted into an output stream with `<<`. -/
inductive Item
  | text (s : String)
  | num (n : Int)
  | vec (v : List Int)
deriving DecidableEq, Repr

/-- Observable events of a run: a runtime call, a line on standard output, a line on
standard error (each line is one statement ending in `std::endl`). -/
inductive Event
  | call (c : Call)
  | out (line : List Item)
  | err (line : List Item)
deriving DecidableEq, Repr

/-- Answers of the external collaborators for one run.

* `fails c` is the `cl::Error` thrown by call `c`, if any.
* `ListPlatformsDevices`, `GetPlatformName`, `GetDeviceName`, `getErrorString` are the
  results of the `Utils.h` helpers of the same names; they and the `getBuildInfo` and
  `getProfilingInfo` queries are taken to return normally.
* `buildStatus`, `buildOptions`, `buildLog` are the three `getBuildInfo` queries.
* `deviceMem b i` is the integer found at index `i` of the fresh buffer `b`.
* `commandStart`, `commandEnd` are the profiling counters of an enqueued command.
* `kernel` gives the work-item function of a named entry point, see `launch`. -/
structure Runtime where
  fails : Call → Option ClError
  ListPlatformsDevices : String
  GetPlatformName : Int → String
  GetDeviceName : Int → Int → String
  getErrorString : Int → String
  buildStatus : Int
  buildOptions : String
  buildLog : String
  deviceMem : Buf → Nat → Int
  commandStart : Call → Nat
  commandEnd : Call → Nat
  kernel : String → Int → Int → Int

/-- State threaded through the host code: the trace so far and the device buffers. -/
structure World where
  trace : List Event
  dev : Buf → List Int

/-- Host computations that may throw `cl::Error`; the state survives a throw. -/
def Exec (α : Type) : Type := World → Except ClError α × World

def Exec.pure {α : Type} (a : α) : Exec α := fun w => (.ok a, w)

def Exec.bind {α β : Type} (m : Exec α) (f : α → Exec β) : Exec β := fun w =>
  match m w with
  | (.ok a, w') => f a w'
  | (.error e, w') => (.error e, w')

def Exec.throw {α : Type} (e : ClError) : Exec α := fun w => (.error e, w)

def Exec.tryCatch {α : Type} (m : Exec α) (h : ClError → Exec α) : Exec α := fun w =>
  match m w with
  | (.ok a, w') => (.ok a, w')
  | (.error e, w') => h e w'

instance : Monad Exec where
  pure := Exec.pure
  bind := Exec.bind

instance : MonadExcept ClError Exec where
  throw := Exec.throw
  tryCatch := Exec.tryCatch

/-- Append one event to the trace. -/
def emit (ev : Event) : Exec Unit := fun w => (.ok (), { w with trace := w.trace ++ [ev] })

/-- One line on standard output. -/
def out (line : List Item) : Exec Unit := emit (.out line)

/-- A runtime call that the bindings report by exception when it fails. -/
def call (rt : Runtime) (c : Call) : Exec Unit := fun w =>
  match rt.fails c with
  | none => (.ok (), { w with trace := w.trace ++ [.call c] })
  | some e => (.error e, { w with trace := w.trace ++ [.call c] })

/-- Replace the content of one device buffer. -/
def setDev (b : Buf) (v : List Int) : Exec Unit := fun w =>
  (.ok (), { w with dev := fun b' => if b' = b then v else w.dev b' })

/-- Read the content of one device buffer. -/
def getDev (b : Buf) : Exec (List Int) := fun w => (.ok (w.dev b), w)

/-- The argument latched at position `index`, if any (the latest binding wins). -/
def Kernel.arg (k : Kernel) (index : Nat) : Option Buf :=
  (k.args.reverse.find? (fun p => p.1 = index)).map (fun p => p.2)

/-- Constructor `cl::Kernel(program, name)`. -/
def createKernel (rt : Runtime) (name : String) : Exec Kernel := do
  call rt (.createKernel name)
  return { name := name, args := [] }

/-- Method `kernel.setArg(index, buffer)`. -/
def setArg (rt : Runtime) (k : Kernel) (index : Nat) (b : Buf) : Exec Kernel := do
  call rt (.setArg k index b)
  return { k with args := k.args ++ [(index, b)] }

/-- Constructor `cl::Buffer(context, CL_MEM_READ_WRITE, bytes)`: a fresh buffer of
`bytes / 4` integers. -/
def createBuffer (rt : Runtime) (b : Buf) (bytes : Nat) : Exec Unit := do
  call rt (.createBuffer b bytes)
  setDev b ((List.range (bytes / 4)).map (rt.deviceMem b))

/-- Method `queue.enqueueWriteBuffer(buffer, blocking, offset, bytes, host, nullptr, &event)` with
`bytes / 4` host integers copied to the start of the buffer; the result is the handle
of the command, used to query its profiling counters. -/
def enqueueWriteBuffer (rt : Runtime) (b : Buf) (blocking : Bool) (offset bytes : Nat)
    (host : List Int) : Exec Call := do
  let c := Call.enqueueWriteBuffer b blocking offset bytes host
  call rt c
  let old ← getDev b
  let src := host.take (bytes / 4)
  setDev b (src ++ old.drop src.length)
  return c

/-- Modelled from the spec: the device source `kernels/my_kernels.cl` is missing, so the
effect of a 1-D launch follows spec section 4.4: each of the `global` work items `i`
computes `out[i] = f(x[i], y[i])` on the buffers bound at positions 0, 1 and 2, where
`f = rt.kernel name` is the work-item function of the entry point. -/
def launch (rt : Runtime) (k : Kernel) (global : Nat) (dev : Buf → List Int) :
    Option (Buf × List Int) :=
  match k.arg 0, k.arg 1, k.arg 2 with
  | some x, some y, some z =>
    some (z, (List.range global).map
      (fun i => rt.kernel k.name ((dev x).getD i 0) ((dev y).getD i 0)) ++ (dev z).drop global)
  | _, _, _ => none

/-- Method `queue.enqueueNDRangeKernel(kernel, NullRange, NDRange(global), NullRange,
nullptr, &event)`; the result is the handle of the command. -/
def enqueueNDRangeKernel (rt : Runtime) (k : Kernel) (global : Nat) : Exec Call := do
  let c := Call.enqueueNDRangeKernel k global
  call rt c
  let w ← (fun w => (.ok w, w) : Exec World)
  match launch rt k global w.dev with
  | some (z, v) => setDev z v
  | none => Exec.pure ()
  return c

/-- Method `queue.enqueueReadBuffer(buffer, blocking, offset, bytes, host, nullptr, &event)`: the
host vector with its first `bytes / 4` integers overwritten, and the command handle. -/
def enqueueReadBuffer (rt : Runtime) (b : Buf) (blocking : Bool) (offset bytes : Nat)
    (host : List Int) : Exec (List Int × Call) := do
  let c := Call.enqueueReadBuffer b blocking offset bytes
  call rt c
  let d ← getDev b
  let src := d.take (bytes / 4)
  return (src ++ host.drop src.length, c)

/-- Difference `event.getProfilingInfo<CL_PROFILING_COMMAND_END>() -
event.getProfilingInfo<CL_PROFILING_COMMAND_START>()` on `cl_ulong` (64-bit unsigned). -/
def elapsed (rt : Runtime) (ev : Call) : Int :=
  (((rt.commandEnd ev % 2 ^ 64 + 2 ^ 64 - rt.commandStart ev % 2 ^ 64) % 2 ^ 64 : Nat) : Int)

/-! ## The program -/

/-- The function `print_help`: five lines on standard error. -/
def print_help : List Event :=
  [ .err [.text "Application usage:"],
    .err [.text "  -p : select platform "],
    .err [.text "  -d : select device"],
    .err [.text "  -l : list all platforms and devices"],
    .err [.text "  -h : print this message"] ]

/-- The pair `platform_id`, `device_id` of `main`. -/
structure Selection where
  platform_id : Int
  device_id : Int
deriving DecidableEq, Repr

/-- Trace and outcome of the option loop: `none` once `-h` has returned from `main`. -/
structure Parsed where
  trace : List Event
  sel : Option Selection
deriving DecidableEq, Repr

/-- The `-l` branch: the listing on standard output, then the rest of the loop. -/
def listThen (rt : Runtime) (r : Parsed) : Parsed :=
  { r with trace := .call .ListPlatformsDevices :: .out [.text rt.ListPlatformsDevices] :: r.trace }

/-- The option loop of `main` (`for (int i = 1; i < argc; i++)`), on the arguments
`argv[i], ..., argv[argc-1]` still to be examined.  The second equation is the case
`i = argc - 1`, where the tests `i < (argc - 1)` of `-p` and `-d` fail; the third is
`i < argc - 1`, where `-p` and `-d` consume `argv[++i]`. -/
def argLoop (rt : Runtime) : List String → Selection → Parsed
  | [], sel => { trace := [], sel := some sel }
  | [a], sel =>
    if a = "-l" then listThen rt (argLoop rt [] sel)
    else if a = "-h" then { trace := print_help, sel := none }
    else argLoop rt [] sel
  | a :: v :: rest, sel =>
    if a = "-p" then argLoop rt rest { sel with platform_id := atoi v }
    else if a = "-d" then argLoop rt rest { sel with device_id := atoi v }
    else if a = "-l" then listThen rt (argLoop rt (v :: rest) sel)
    else if a = "-h" then { trace := print_help, sel := none }
    else argLoop rt (v :: rest) sel

/-- The initialisation loop of the host vectors:
`for (i = 0; i < A.size(); i++) { A[i] = i; B[i] = (i + 1) % 3; }`. -/
def fillVectors (A B : List Int) : List Int × List Int :=
  (List.range A.length).foldl
    (fun AB i => (AB.1.set i (i : Int), AB.2.set i (Int.tmod ((i : Int) + 1) 3))) (A, B)

/-- The host vectors `A` and `B` after their initialisation loop: both are created
with 100 zero elements (`std::vector<int> A(100)`). -/
def hostVectors : List Int × List Int :=
  fillVectors (List.replicate 100 0) (List.replicate 100 0)

/-- The body of the `try` block of `main`. -/
def hostBody (rt : Runtime) (platform_id device_id : Int) : Exec Unit := do
  call rt (.GetContext platform_id device_id)
  out [.text "Runinng on ", .text (rt.GetPlatformName platform_id), .text ", ",
    .text (rt.GetDeviceName platform_id device_id)]
  call rt (.createQueue true)
  call rt (.AddSources "kernels/my_kernels.cl")
  call rt .createProgram
  try
    call rt .build
  catch err =>
    out [.text "Build Status: ", .num rt.buildStatus]
    out [.text "Build Options:\t", .text rt.buildOptions]
    out [.text "Build Log:\t ", .text rt.buildLog]
    throw err
  let A := hostVectors.1
  let B := hostVectors.2
  let vector_elements := A.length
  let vector_size := A.length * 4
  let C := List.replicate vector_elements (0 : Int)
  createBuffer rt .A vector_size
  createBuffer rt .B vector_size
  createBuffer rt .C vector_size
  let copyEventA ← enqueueWriteBuffer rt .A true 0 vector_size A
  let copyEventB ← enqueueWriteBuffer rt .B true 0 vector_size B
  let kernel_mult ← createKernel rt "multadd"
  let kernel_mult ← setArg rt kernel_mult 0 .A
  let kernel_mult ← setArg rt kernel_mult 1 .B
  let kernel_mult ← setArg rt kernel_mult 2 .C
  let kernel_add ← createKernel rt "add"
  let kernel_add ← setArg rt kernel_add 0 .C
  let kernel_add ← setArg rt kernel_add 1 .B
  let _kernel_add ← setArg rt kernel_add 2 .C
  let profEventMult ← enqueueNDRangeKernel rt kernel_mult vector_elements
  let (C, readEventC) ← enqueueReadBuffer rt .C true 0 vector_size C
  out [.text "A = ", .vec A]
  out [.text "B = ", .vec B]
  out [.text "C = ", .vec C]
  out [.text "Copying buffer A to device memory took ", .num (elapsed rt copyEventA),
    .text "ns to complete."]
  out [.text "Copying buffer B to device memory took ", .num (elapsed rt copyEventB),
    .text "ns to complete."]
  out [.text "Reading buffer C took ", .num (elapsed rt readEventC), .text "ns to complete."]
  out [.text "Kernel took ", .num (elapsed rt profEventMult), .text "ns to complete."]

/-- The way a run of `main` ends: the `return 0` of `-h`, the end of the `try` block, or
the handler `catch (cl::Error err)` with the error it caught. -/
inductive Outcome
  | help
  | success
  | caught (err : ClError)
deriving DecidableEq, Repr

/-- Exit status, trace and return path of a run. -/
structure Result where
  exit : Int
  trace : List Event
  outcome : Outcome
deriving DecidableEq, Repr

/-- The handler `catch (cl::Error err)` of `main`. -/
def handler (rt : Runtime) (err : ClError) : Event :=
  .err [.text "ERROR: ", .text err.what, .text ", ", .text (rt.getErrorString err.err)]

/-- The function `main`, on `argv[0], ..., argv[argc-1]`. -/
def main (rt : Runtime) (argv : List String) : Result :=
  let parsed := argLoop rt argv.tail { platform_id := 0, device_id := 0 }
  match parsed.sel with
  | none => { exit := 0, trace := parsed.trace, outcome := .help }
  | some sel =>
    match hostBody rt sel.platform_id sel.device_id
      { trace := parsed.trace, dev := fun _ => [] } with
    | (.ok _, w) => { exit := 0, trace := w.trace, outcome := .success }
    | (.error err, w) => { exit := 0, trace := w.trace ++ [handler rt err], outcome := .caught err }

/-! ## Observations on a trace -/

/-- Lines written to standard output, in order. -/
def stdout (tr : List Event) : List (List Item) :=
  tr.filterMap (fun ev => match ev with | .out l => some l | _ => none)

/-- Lines written to standard error, in order. -/
def stderr (tr : List Event) : List (List Item) :=
  tr.filterMap (fun ev => match ev with | .err l => some l | _ => none)

/-- Runtime calls, in order. -/
def calls (tr : List Event) : List Call :=
  tr.filterMap (fun ev => match ev with | .call c => some c | _ => none)

/-- Whether a call submits a command to the command queue. -/
def Call.isSubmission : Call → Bool
  | .enqueueWriteBuffer _ _ _ _ _ => true
  | .enqueueNDRangeKernel _ _ => true
  | .enqueueReadBuffer _ _ _ _ => true
  | _ => false

/-- Commands submitted to the command queue, in order. -/
def submitted (tr : List Event) : List Call := (calls tr).filter Call.isSubmission

/-- The vector read back from `buffer_C` after the launch of `multadd` on the host
vectors. -/
def deviceC (rt : Runtime) : List Int :=
  (List.range 100).map
    (fun i => rt.kernel "multadd" (hostVectors.1.getD i 0) (hostVectors.2.getD i 0))

/-- The kernel object `kernel_mult` at the time of its launch. -/
def kernel_mult : Kernel := { name := "multadd", args := [(0, .A), (1, .B), (2, .C)] }

/-- The kernel object `kernel_add` at the end of the `try` block. -/
def kernel_add : Kernel := { name := "add", args := [(0, .C), (1, .B), (2, .C)] }

/-- The two transfers to the device, the launch and the transfer back. -/
def copyA : Call := .enqueueWriteBuffer .A true 0 400 hostVectors.1

def copyB : Call := .enqueueWriteBuffer .B true 0 400 hostVectors.2

def launchMult : Call := .enqueueNDRangeKernel kernel_mult 100

def readC : Call := .enqueueReadBuffer .C true 0 400

/-- The calls of the `try` block, in program order. -/
def pipelineCalls (platform_id device_id : Int) : List Call :=
  [ .GetContext platform_id device_id, .createQueue true, .AddSources "kernels/my_kernels.cl",
    .createProgram, .build,
    .createBuffer .A 400, .createBuffer .B 400, .createBuffer .C 400,
    copyA, copyB,
    .createKernel "multadd",
    .setArg { name := "multadd", args := [] } 0 .A,
    .setArg { name := "multadd", args := [(0, .A)] } 1 .B,
    .setArg { name := "multadd", args := [(0, .A), (1, .B)] } 2 .C,
    .createKernel "add",
    .setArg { name := "add", args := [] } 0 .C,
    .setArg { name := "add", args := [(0, .C)] } 1 .B,
    .setArg { name := "add", args := [(0, .C), (1, .B)] } 2 .C,
    launchMult, readC ]

/-- The banner line. -/
def banner (rt : Runtime) (platform_id device_id : Int) : List Item :=
  [.text "Runinng on ", .text (rt.GetPlatformName platform_id), .text ", ",
    .text (rt.GetDeviceName platform_id device_id)]

/-- The eight lines written to standard output by a `try` block that completes. -/
def successLines (rt : Runtime) (platform_id device_id : Int) : List (List Item) :=
  [ banner rt platform_id device_id,
    [.text "A = ", .vec hostVectors.1],
    [.text "B = ", .vec hostVectors.2],
    [.text "C = ", .vec (deviceC rt)],
    [.text "Copying buffer A to device memory took ", .num (elapsed rt copyA),
      .text "ns to complete."],
    [.text "Copying buffer B to device memory took ", .num (elapsed rt copyB),
      .text "ns to complete."],
    [.text "Reading buffer C took ", .num (elapsed rt readC), .text "ns to complete."],
    [.text "Kernel took ", .num (elapsed rt launchMult), .text "ns to complete."] ]

/-- The trace of a `try` block that completes. -/
def successTrace (rt : Runtime) (platform_id device_id : Int) : List Event :=
  .call (.GetContext platform_id device_id) :: .out (banner rt platform_id device_id) ::
    ((pipelineCalls platform_id device_id).tail.map Event.call ++
      (successLines rt platform_id device_id).tail.map Event.out)

/-! ## Positions of the option loop -/

/-- Whether the option loop, started on `pre ++ next`, examines all of `pre` and then
stands on the first argument of `next` as a flag: no `-h` is met as a flag in `pre`,
and `pre` does not end in a `-p` or `-d` that would take that argument as its value. -/
def scans : List String → Bool
  | [] => true
  | [a] => a != "-p" && a != "-d" && a != "-h"
  | a :: v :: rest =>
    if a = "-p" then scans rest
    else if a = "-d" then scans rest
    else if a = "-h" then false
    else scans (v :: rest)

/-- An argument in flag position that no branch of the loop accepts: it is not `-l`, not
`-h`, and not a `-p` or `-d` with a value after it (`post` is what follows). -/
def unrecognised (x : String) (post : List String) : Bool :=
  !(x = "-p" && !post.isEmpty) && !(x = "-d" && !post.isEmpty) && x != "-l" && x != "-h"

/-- Number of `-l` that the option loop meets as a flag while it scans `pre`: a `-l`
taken as the value of a `-p` or `-d` is not counted, and nothing is after a `-h` met as
a flag. -/
def listFlags : List String → Nat
  | [] => 0
  | [a] => if a = "-l" then 1 else 0
  | a :: v :: rest =>
    if a = "-p" then listFlags rest
    else if a = "-d" then listFlags rest
    else if a = "-l" then listFlags (v :: rest) + 1
    else if a = "-h" then 0
    else listFlags (v :: rest)

/-! ## Text of a line -/

/-- Text of a vector.  Modelled from the spec: `operator<<` for vectors is in the missing
`Utils.h`; section 6 prints a vector as a bracketed comma-separated list. -/
def renderVec (v : List Int) : String :=
  "[" ++ ", ".intercalate (v.map toString) ++ "]"

/-- Text that an inserted value adds to the stream. -/
def renderItem : Item → String
  | .text s => s
  | .num n => toString n
  | .vec v => renderVec v

/-- Text of a line (without its end of line). -/
def renderLine (line : List Item) : String :=
  String.join (line.map renderItem)

/-- The profiling line as the specification words it: `<label> took <ns> ns to complete.` -/
def specProfilingLine (label : String) (ns : Nat) : String :=
  label ++ " took " ++ toString ns ++ " ns to complete."

/-! ## Reference runtimes -/

/-- Modelled from the spec: the reference semantics of the `multadd` entry point of the
missing device source, `C[i] = A[i] * B[i] + B[i]` in 32-bit signed arithmetic. -/
def multaddRef (a b : Int) : Int := wrap32 (wrap32 (a * b) + b)

/-- A runtime in which every call succeeds, with the reference `multadd`; the other entry
points, which `main` never launches, compute 0. -/
def rtOk : Runtime where
  fails := fun _ => none
  ListPlatformsDevices := "Platform 0, device 0"
  GetPlatformName := fun _ => "P"
  GetDeviceName := fun _ _ => "D"
  getErrorString := fun _ => "UNKNOWN"
  buildStatus := 0
  buildOptions := ""
  buildLog := ""
  deviceMem := fun _ _ => 0
  commandStart := fun _ => 10
  commandEnd := fun _ => 15
  kernel := fun name => if name = "multadd" then multaddRef else fun _ _ => 0

/-- A runtime in which exactly the calls selected by `bad` throw `e`. -/
def rtFailing (bad : Call → Bool) (e : ClError) : Runtime :=
  { rtOk with fails := fun c => if bad c then some e else none }

/-- A runtime on which the device source does not compile. -/
def rtBadSource : Runtime :=
  { rtFailing (fun c => c = .build) ⟨"clBuildProgram", -11⟩ with
    buildStatus := -2
    buildLog := "error: expected identifier" }

/-! ## Predicates used by the lemmas -/

/-- The two events of one `-l`. -/
def isListing (rt : Runtime) (ev : Event) : Prop :=
  ev = .call .ListPlatformsDevices ∨ ev = .out [.text rt.ListPlatformsDevices]

/-- A computation that only appends to the trace. -/
def Grows {α : Type} (m : Exec α) : Prop := ∀ w, ∃ t, (m w).2.trace = w.trace ++ t

/-! ## Running the host code -/

theorem exec_bind {α β : Type} (m : Exec α) (f : α → Exec β) (w : World) :
    (m >>= f) w = Exec.bind m f w := rfl

theorem exec_pure {α : Type} (a : α) (w : World) :
    (Pure.pure a : Exec α) w = (.ok a, w) := rfl

theorem exec_tryCatch {α : Type} (m : Exec α) (h : ClError → Exec α) (w : World) :
    (tryCatch m h) w = Exec.tryCatch m h w := rfl

theorem exec_throw {α : Type} (e : ClError) (w : World) :
    (throw e : Exec α) w = (.error e, w) := rfl

theorem hostVectors_fst_length : hostVectors.1.length = 100 := by decide

theorem hostVectors_snd_length : hostVectors.2.length = 100 := by decide

theorem take_hostVectors_fst : List.take 100 hostVectors.1 = hostVectors.1 :=
  List.take_of_length_le (le_of_eq hostVectors_fst_length)

theorem take_hostVectors_snd : List.take 100 hostVectors.2 = hostVectors.2 :=
  List.take_of_length_le (le_of_eq hostVectors_snd_length)

theorem drop_fresh (f : Nat → Int) : List.drop 100 (List.map f (List.range 100)) = [] := by
  apply List.drop_of_length_le
  simp

theorem arg_zero (n : String) (a b c : Buf) :
    Kernel.arg ⟨n, [(0, a), (1, b), (2, c)]⟩ 0 = some a := rfl

theorem arg_one (n : String) (a b c : Buf) :
    Kernel.arg ⟨n, [(0, a), (1, b), (2, c)]⟩ 1 = some b := rfl

theorem arg_two (n : String) (a b c : Buf) :
    Kernel.arg ⟨n, [(0, a), (1, b), (2, c)]⟩ 2 = some c := rfl

/-- A `try` block that completes made every call of the pipeline, none of which threw,
and left the trace `successTrace`. -/
theorem hostBody_ok (rt : Runtime) (p d : Int) (w : World)
    (h : (hostBody rt p d w).1 = .ok ()) :
    (∀ c ∈ pipelineCalls p d, rt.fails c = none) ∧
      (hostBody rt p d w).2.trace = w.trace ++ successTrace rt p d := by
  simp only [hostBody, exec_bind, Exec.bind, exec_pure, exec_tryCatch, Exec.tryCatch,
    exec_throw, call, out, emit, createBuffer, enqueueWriteBuffer, enqueueReadBuffer,
    enqueueNDRangeKernel, createKernel, setArg, setDev, getDev, Exec.pure] at h
  have h1 : rt.fails (.GetContext p d) = none := by
    cases hc : rt.fails (.GetContext p d) with
    | none => rfl
    | some e => simp [hc, hostVectors_fst_length, launch, arg_zero, arg_one, arg_two, exec_bind,
      Exec.bind, exec_pure, setDev] at h
  simp [h1, hostVectors_fst_length, launch, arg_zero, arg_one, arg_two, exec_bind,
      Exec.bind, exec_pure, setDev] at h
  have h2 : rt.fails (.createQueue true) = none := by
    cases hc : rt.fails (.createQueue true) with
    | none => rfl
    | some e => simp [hc, hostVectors_fst_length, launch, arg_zero, arg_one, arg_two, exec_bind,
      Exec.bind, exec_pure, setDev] at h
  simp [h2, hostVectors_fst_length, launch, arg_zero, arg_one, arg_two, exec_bind,
      Exec.bind, exec_pure, setDev] at h
  have h3 : rt.fails (.AddSources "kernels/my_kernels.cl") = none := by
    cases hc : rt.fails (.AddSources "kernels/my_kernels.cl") with
    | none => rfl
    | some e => simp [hc, hostVectors_fst_length, launch, arg_zero, arg_one, arg_two, exec_bind,
      Exec.bind, exec_pure, setDev] at h
  simp [h3, hostVectors_fst_length, launch, arg_zero, arg_one, arg_two, exec_bind,
      Exec.bind, exec_pure, setDev] at h
  have h4 : rt.fails (.createProgram) = none := by
    cases hc : rt.fails (.createProgram) with
    | none => rfl
    | some e => simp [hc, hostVectors_fst_length, launch, arg_zero, arg_one, arg_two, exec_bind,
      Exec.bind, exec_pure, setDev] at h
  simp [h4, hostVectors_fst_length, launch, arg_zero, arg_one, arg_two, exec_bind,
      Exec.bind, exec_pure, setDev] at h
  have h5 : rt.fails (.build) = none := by
    cases hc : rt.fails (.build) with
    | none => rfl
    | some e => simp [hc, hostVectors_fst_length, launch, arg_zero, arg_one, arg_two, exec_bind,
      Exec.bind, exec_pure, setDev] at h
  simp [h5, hostVectors_fst_length, launch, arg_zero, arg_one, arg_two, exec_bind,
      Exec.bind, exec_pure, setDev] at h
  have h6 : rt.fails (.createBuffer .A 400) = none := by
    cases hc : rt.fails (.createBuffer .A 400) with
    | none => rfl
    | some e => simp [hc, hostVectors_fst_length, launch, arg_zero, arg_one, arg_two, exec_bind,
      Exec.bind, exec_pure, setDev] at h
  simp [h6, hostVectors_fst_length, launch, arg_zero, arg_one, arg_two, exec_bind,
      Exec.bind, exec_pure, setDev] at h
  have h7 : rt.fails (.createBuffer .B 400) = none := by
    cases hc : rt.fails (.createBuffer .B 400) with
    | none => rfl
    | some e => simp [hc, hostVectors_fst_length, launch, arg_zero, arg_one, arg_two, exec_bind,
      Exec.bind, exec_pure, setDev] at h
  simp [h7, hostVectors_fst_length, launch, arg_zero, arg_one, arg_two, exec_bind,
      Exec.bind, exec_pure, setDev] at h
  have h8 : rt.fails (.createBuffer .C 400) = none := by
    cases hc : rt.fails (.createBuffer .C 400) with
    | none => rfl
    | some e => simp [hc, hostVectors_fst_length, launch, arg_zero, arg_one, arg_two, exec_bind,
      Exec.bind, exec_pure, setDev] at h
  simp [h8, hostVectors_fst_length, launch, arg_zero, arg_one, arg_two, exec_bind,
      Exec.bind, exec_pure, setDev] at h
  have h9 : rt.fails (.enqueueWriteBuffer .A true 0 400 hostVectors.1) = none := by
    cases hc : rt.fails (.enqueueWriteBuffer .A true 0 400 hostVectors.1) with
    | none => rfl
    | some e => simp [hc, hostVectors_fst_length, launch, arg_zero, arg_one, arg_two, exec_bind,
      Exec.bind, exec_pure, setDev] at h
  simp [h9, hostVectors_fst_length, launch, arg_zero, arg_one, arg_two, exec_bind,
      Exec.bind, exec_pure, setDev] at h
  have h10 : rt.fails (.enqueueWriteBuffer .B true 0 400 hostVectors.2) = none := by
    cases hc : rt.fails (.enqueueWriteBuffer .B true 0 400 hostVectors.2) with
    | none => rfl
    | some e => simp [hc, hostVectors_fst_length, launch, arg_zero, arg_one, arg_two, exec_bind,
      Exec.bind, exec_pure, setDev] at h
  simp [h10, hostVectors_fst_length, launch, arg_zero, arg_one, arg_two, exec_bind,
      Exec.bind, exec_pure, setDev] at h
  have h11 : rt.fails (.createKernel "multadd") = none := by
    cases hc : rt.fails (.createKernel "multadd") with
    | none => rfl
    | some e => simp [hc, hostVectors_fst_length, launch, arg_zero, arg_one, arg_two, exec_bind,
      Exec.bind, exec_pure, setDev] at h
  simp [h11, hostVectors_fst_length, launch, arg_zero, arg_one, arg_two, exec_bind,
      Exec.bind, exec_pure, setDev] at h
  have h12 : rt.fails (.setArg ⟨"multadd", []⟩ 0 .A) = none := by
    cases hc : rt.fails (.setArg ⟨"multadd", []⟩ 0 .A) with
    | none => rfl
    | some e => simp [hc, hostVectors_fst_length, launch, arg_zero, arg_one, arg_two, exec_bind,
      Exec.bind, exec_pure, setDev] at h
  simp [h12, hostVectors_fst_length, launch, arg_zero, arg_one, arg_two, exec_bind,
      Exec.bind, exec_pure, setDev] at h
  have h13 : rt.fails (.setArg ⟨"multadd", [(0, .A)]⟩ 1 .B) = none := by
    cases hc : rt.fails (.setArg ⟨"multadd", [(0, .A)]⟩ 1 .B) with
    | none => rfl
    | some e => simp [hc, hostVectors_fst_length, launch, arg_zero, arg_one, arg_two, exec_bind,
      Exec.bind, exec_pure, setDev] at h
  simp [h13, hostVectors_fst_length, launch, arg_zero, arg_one, arg_two, exec_bind,
      Exec.bind, exec_pure, setDev] at h
  have h14 : rt.fails (.setArg ⟨"multadd", [(0, .A), (1, .B)]⟩ 2 .C) = none := by
    cases hc : rt.fails (.setArg ⟨"multadd", [(0, .A), (1, .B)]⟩ 2 .C) with
    | none => rfl
    | some e => simp [hc, hostVectors_fst_length, launch, arg_zero, arg_one, arg_two, exec_bind,
      Exec.bind, exec_pure, setDev] at h
  simp [h14, hostVectors_fst_length, launch, arg_zero, arg_one, arg_two, exec_bind,
      Exec.bind, exec_pure, setDev] at h
  have h15 : rt.fails (.createKernel "add") = none := by
    cases hc : rt.fails (.createKernel "add") with
    | none => rfl
    | some e => simp [hc, hostVectors_fst_length, launch, arg_zero, arg_one, arg_two, exec_bind,
      Exec.bind, exec_pure, setDev] at h
  simp [h15, hostVectors_fst_length, launch, arg_zero, arg_one, arg_two, exec_bind,
      Exec.bind, exec_pure, setDev] at h
  have h16 : rt.fails (.setArg ⟨"add", []⟩ 0 .C) = none := by
    cases hc : rt.fails (.setArg ⟨"add", []⟩ 0 .C) with
    | none => rfl
    | some e => simp [hc, hostVectors_fst_length, launch, arg_zero, arg_one, arg_two, exec_bind,
      Exec.bind, exec_pure, setDev] at h
  simp [h16, hostVectors_fst_length, launch, arg_zero, arg_one, arg_two, exec_bind,
      Exec.bind, exec_pure, setDev] at h
  have h17 : rt.fails (.setArg ⟨"add", [(0, .C)]⟩ 1 .B) = none := by
    cases hc : rt.fails (.setArg ⟨"add", [(0, .C)]⟩ 1 .B) with
    | none => rfl
    | some e => simp [hc, hostVectors_fst_length, launch, arg_zero, arg_one, arg_two, exec_bind,
      Exec.bind, exec_pure, setDev] at h
  simp [h17, hostVectors_fst_length, launch, arg_zero, arg_one, arg_two, exec_bind,
      Exec.bind, exec_pure, setDev] at h
  have h18 : rt.fails (.setArg ⟨"add", [(0, .C), (1, .B)]⟩ 2 .C) = none := by
    cases hc : rt.fails (.setArg ⟨"add", [(0, .C), (1, .B)]⟩ 2 .C) with
    | none => rfl
    | some e => simp [hc, hostVectors_fst_length, launch, arg_zero, arg_one, arg_two, exec_bind,
      Exec.bind, exec_pure, setDev] at h
  simp [h18, hostVectors_fst_length, launch, arg_zero, arg_one, arg_two, exec_bind,
      Exec.bind, exec_pure, setDev] at h
  have h19 : rt.fails (.enqueueNDRangeKernel ⟨"multadd", [(0, .A), (1, .B), (2, .C)]⟩ 100) = none := by
    cases hc : rt.fails (.enqueueNDRangeKernel ⟨"multadd", [(0, .A), (1, .B), (2, .C)]⟩ 100) with
    | none => rfl
    | some e => simp [hc, hostVectors_fst_length, launch, arg_zero, arg_one, arg_two, exec_bind,
      Exec.bind, exec_pure, setDev] at h
  simp [h19, hostVectors_fst_length, launch, arg_zero, arg_one, arg_two, exec_bind,
      Exec.bind, exec_pure, setDev] at h
  have h20 : rt.fails (.enqueueReadBuffer .C true 0 400) = none := by
    cases hc : rt.fails (.enqueueReadBuffer .C true 0 400) with
    | none => rfl
    | some e => simp [hc, hostVectors_fst_length, launch, arg_zero, arg_one, arg_two, exec_bind,
      Exec.bind, exec_pure, setDev] at h
  constructor
  · intro c hc
    simp only [pipelineCalls, copyA, copyB, launchMult, readC, kernel_mult, List.mem_cons,
      List.mem_singleton, List.not_mem_nil, or_false] at hc
    rcases hc with rfl | rfl | rfl | rfl | rfl | rfl | rfl | rfl | rfl | rfl | rfl | rfl | rfl |
      rfl | rfl | rfl | rfl | rfl | rfl | rfl <;> assumption
  · simp [hostBody, exec_bind, Exec.bind, exec_pure, exec_tryCatch, Exec.tryCatch, exec_throw,
      call, out, emit, createBuffer, enqueueWriteBuffer, enqueueReadBuffer,
      enqueueNDRangeKernel, createKernel, setArg, setDev, getDev, Exec.pure,
      hostVectors_fst_length, hostVectors_snd_length, take_hostVectors_fst,
      take_hostVectors_snd, drop_fresh, launch, arg_zero, arg_one, arg_two, successTrace,
      pipelineCalls, successLines, banner, copyA, copyB, readC, launchMult, kernel_mult,
      deviceC, h1, h2, h3, h4, h5, h6, h7, h8, h9, h10, h11, h12, h13, h14, h15, h16, h17, h18, h19, h20]

/-! ## The option loop -/

theorem argLoop_nil (rt : Runtime) (sel : Selection) :
    argLoop rt [] sel = { trace := [], sel := some sel } := by
  simp [argLoop]

/-- One step of the loop on an argument with nothing after it. -/
theorem argLoop_single (rt : Runtime) (a : String) (sel : Selection) :
    argLoop rt [a] sel =
      if a = "-l" then listThen rt (argLoop rt [] sel)
      else if a = "-h" then { trace := print_help, sel := none }
      else argLoop rt [] sel := by
  simp [argLoop]

/-- One step of the loop on an argument with another one after it. -/
theorem argLoop_cons_cons (rt : Runtime) (a v : String) (rest : List String) (sel : Selection) :
    argLoop rt (a :: v :: rest) sel =
      if a = "-p" then argLoop rt rest { sel with platform_id := atoi v }
      else if a = "-d" then argLoop rt rest { sel with device_id := atoi v }
      else if a = "-l" then listThen rt (argLoop rt (v :: rest) sel)
      else if a = "-h" then { trace := print_help, sel := none }
      else argLoop rt (v :: rest) sel := by
  simp [argLoop]

/-- An argument that is not `-p`, `-d`, `-l` or `-h` is skipped, whatever follows. -/
theorem argLoop_skip (rt : Runtime) (x : String) (post : List String) (sel : Selection)
    (h : unrecognised x post = true) : argLoop rt (x :: post) sel = argLoop rt post sel := by
  cases post with
  | nil =>
    simp [unrecognised] at h
    simp [argLoop_single, h]
  | cons v rest =>
    simp [unrecognised] at h
    simp [argLoop_cons_cons, h]

/-- A `-l` in flag position lists and goes on, whatever follows. -/
theorem argLoop_list (rt : Runtime) (post : List String) (sel : Selection) :
    argLoop rt ("-l" :: post) sel = listThen rt (argLoop rt post sel) := by
  cases post with
  | nil => simp [argLoop_single]
  | cons v rest => simp [argLoop_cons_cons]

/-- A `-h` in flag position prints the usage block and returns, whatever follows. -/
theorem argLoop_help (rt : Runtime) (post : List String) (sel : Selection) :
    argLoop rt ("-h" :: post) sel = { trace := print_help, sel := none } := by
  cases post with
  | nil => simp [argLoop_single]
  | cons v rest => simp [argLoop_cons_cons]

/-- The loop on `pre ++ next`, when it scans `pre`: the events of `pre`, then the loop on
`next` from the selection reached after `pre`. -/
theorem argLoop_append (rt : Runtime) (next : List String) :
    ∀ (pre : List String) (sel : Selection), scans pre = true →
      ∃ sel', (argLoop rt pre sel).sel = some sel' ∧
        argLoop rt (pre ++ next) sel =
          { trace := (argLoop rt pre sel).trace ++ (argLoop rt next sel').trace,
            sel := (argLoop rt next sel').sel }
  | [], sel, _ => ⟨sel, by simp [argLoop_nil], by simp [argLoop_nil]⟩
  | [a], sel, h => by
    simp [scans] at h
    obtain ⟨⟨hp, hd⟩, hh⟩ := h
    refine ⟨sel, ?_, ?_⟩
    · by_cases hl : a = "-l" <;> simp [argLoop_single, argLoop_nil, listThen, hl, hh]
    · by_cases hl : a = "-l"
      · subst hl
        simp [argLoop_list, argLoop_nil, listThen]
      · have hu : unrecognised a next = true := by simp [unrecognised, hp, hd, hl, hh]
        simp [argLoop_skip rt a next sel hu, argLoop_single, argLoop_nil, hl, hh]
  | a :: v :: rest, sel, h => by
    by_cases hp : a = "-p"
    · subst hp
      simp [scans] at h
      obtain ⟨sel', h1, h2⟩ := argLoop_append rt next rest { sel with platform_id := atoi v } h
      exact ⟨sel', by simpa [argLoop_cons_cons] using h1, by simpa [argLoop_cons_cons] using h2⟩
    · by_cases hd : a = "-d"
      · subst hd
        simp [scans] at h
        obtain ⟨sel', h1, h2⟩ := argLoop_append rt next rest { sel with device_id := atoi v } h
        exact ⟨sel', by simpa [argLoop_cons_cons] using h1, by simpa [argLoop_cons_cons] using h2⟩
      · by_cases hh : a = "-h"
        · subst hh
          simp [scans] at h
        · simp [scans, hp, hd, hh] at h
          obtain ⟨sel', h1, h2⟩ := argLoop_append rt next (v :: rest) sel h
          by_cases hl : a = "-l"
          · subst hl
            refine ⟨sel', ?_, ?_⟩
            · simpa [argLoop_cons_cons, listThen] using h1
            · have : "-l" :: v :: rest ++ next = "-l" :: (v :: rest ++ next) := rfl
              rw [this, argLoop_list, h2]
              simp [argLoop_cons_cons, listThen]
          · refine ⟨sel', ?_, ?_⟩
            · simpa [argLoop_cons_cons, hp, hd, hl, hh] using h1
            · have : a :: v :: rest ++ next = a :: v :: (rest ++ next) := rfl
              rw [this, argLoop_cons_cons]
              simp only [hp, hd, hl, hh, if_false]
              have : v :: (rest ++ next) = v :: rest ++ next := rfl
              rw [this, h2]
              simp [argLoop_cons_cons, hp, hd, hl, hh]

/-- Every event of the option loop that did not take the `-h` branch is a listing, and
there is none without a `-l` on the command line. -/
theorem argLoop_trace (rt : Runtime) :
    ∀ (args : List String) (sel s : Selection), (argLoop rt args sel).sel = some s →
      (∀ ev ∈ (argLoop rt args sel).trace, isListing rt ev) ∧
        ("-l" ∉ args → (argLoop rt args sel).trace = [])
  | [], sel, s, _ => by simp [argLoop_nil]
  | [a], sel, s, h => by
    rw [argLoop_single] at h ⊢
    by_cases hl : a = "-l"
    · simp [hl, listThen, argLoop_nil, isListing]
    · by_cases hh : a = "-h"
      · simp [hl, hh] at h
      · simp [hl, hh, argLoop_nil]
  | a :: v :: rest, sel, s, h => by
    rw [argLoop_cons_cons] at h ⊢
    by_cases hp : a = "-p"
    · simp only [hp, if_true] at h ⊢
      have := argLoop_trace rt rest _ s h
      refine ⟨this.1, fun hn => this.2 (fun hm => hn ?_)⟩
      simp [hm]
    · by_cases hd : a = "-d"
      · simp only [hp, hd, if_true, if_false] at h ⊢
        have := argLoop_trace rt rest _ s h
        refine ⟨this.1, fun hn => this.2 (fun hm => hn ?_)⟩
        simp [hm]
      · by_cases hl : a = "-l"
        · simp only [hp, hd, hl, if_true, if_false] at h ⊢
          have := argLoop_trace rt (v :: rest) sel s (by simpa [listThen] using h)
          refine ⟨?_, fun hn => absurd (by simp [hl]) hn⟩
          intro ev hev
          simp [listThen] at hev
          rcases hev with rfl | rfl | hev
          · exact Or.inl rfl
          · exact Or.inr rfl
          · exact this.1 ev hev
        · by_cases hh : a = "-h"
          · simp [hp, hd, hl, hh] at h
          · simp only [hp, hd, hl, hh, if_false] at h ⊢
            have := argLoop_trace rt (v :: rest) sel s h
            refine ⟨this.1, fun hn => this.2 (fun hm => hn ?_)⟩
            exact List.mem_cons_of_mem _ hm

/-! ## The trace only grows -/

theorem grows_pure {α : Type} (a : α) : Grows (Pure.pure a : Exec α) := fun _ => ⟨[], by simp [exec_pure]⟩

theorem grows_bind {α β : Type} {m : Exec α} {f : α → Exec β} (hm : Grows m)
    (hf : ∀ a, Grows (f a)) : Grows (m >>= f) := by
  intro w
  obtain ⟨t, ht⟩ := hm w
  simp only [exec_bind, Exec.bind]
  rcases hmw : m w with ⟨r, w'⟩
  rw [hmw] at ht
  cases r with
  | error e => exact ⟨t, ht⟩
  | ok a =>
    obtain ⟨t', ht'⟩ := hf a w'
    have hw : w'.trace = w.trace ++ t := ht
    exact ⟨t ++ t', by rw [ht', hw, List.append_assoc]⟩

theorem grows_tryCatch {α : Type} {m : Exec α} {h : ClError → Exec α} (hm : Grows m)
    (hh : ∀ e, Grows (h e)) : Grows (tryCatch m h) := by
  intro w
  obtain ⟨t, ht⟩ := hm w
  simp only [exec_tryCatch, Exec.tryCatch]
  rcases hmw : m w with ⟨r, w'⟩
  rw [hmw] at ht
  cases r with
  | ok a => exact ⟨t, ht⟩
  | error e =>
    obtain ⟨t', ht'⟩ := hh e w'
    have hw : w'.trace = w.trace ++ t := ht
    exact ⟨t ++ t', by rw [ht', hw, List.append_assoc]⟩

theorem grows_throw {α : Type} (e : ClError) : Grows (throw e : Exec α) :=
  fun _ => ⟨[], by simp [exec_throw]⟩

theorem grows_emit (ev : Event) : Grows (emit ev) := fun _ => ⟨[ev], rfl⟩

theorem grows_out (l : List Item) : Grows (out l) := grows_emit _

theorem grows_call (rt : Runtime) (c : Call) : Grows (call rt c) := by
  intro w
  refine ⟨[.call c], ?_⟩
  unfold call
  cases rt.fails c <;> rfl

theorem grows_setDev (b : Buf) (v : List Int) : Grows (setDev b v) := fun _ => ⟨[], by simp [setDev]⟩

theorem grows_getDev (b : Buf) : Grows (getDev b) := fun _ => ⟨[], by simp [getDev]⟩

theorem grows_createKernel (rt : Runtime) (n : String) : Grows (createKernel rt n) :=
  grows_bind (grows_call _ _) (fun _ => grows_pure _)

theorem grows_setArg (rt : Runtime) (k : Kernel) (i : Nat) (b : Buf) : Grows (setArg rt k i b) :=
  grows_bind (grows_call _ _) (fun _ => grows_pure _)

theorem grows_createBuffer (rt : Runtime) (b : Buf) (n : Nat) : Grows (createBuffer rt b n) :=
  grows_bind (grows_call _ _) (fun _ => grows_setDev _ _)

theorem grows_enqueueWriteBuffer (rt : Runtime) (b : Buf) (bl : Bool) (o n : Nat) (h : List Int) :
    Grows (enqueueWriteBuffer rt b bl o n h) :=
  grows_bind (grows_call _ _) (fun _ => grows_bind (grows_getDev _)
    (fun _ => grows_bind (grows_setDev _ _) (fun _ => grows_pure _)))

theorem grows_enqueueReadBuffer (rt : Runtime) (b : Buf) (bl : Bool) (o n : Nat) (h : List Int) :
    Grows (enqueueReadBuffer rt b bl o n h) :=
  grows_bind (grows_call _ _) (fun _ => grows_bind (grows_getDev _) (fun _ => grows_pure _))

theorem grows_enqueueNDRangeKernel (rt : Runtime) (k : Kernel) (g : Nat) :
    Grows (enqueueNDRangeKernel rt k g) := by
  refine grows_bind (grows_call _ _) (fun _ => grows_bind (fun w => ⟨[], by simp⟩) (fun w => ?_))
  cases launch rt k g w.dev with
  | none => exact grows_bind (fun w => ⟨[], by simp [Exec.pure]⟩) (fun _ => grows_pure _)
  | some zv => exact grows_bind (grows_setDev _ _) (fun _ => grows_pure _)

/-! ## Observations -/

theorem stdout_append (s t : List Event) : stdout (s ++ t) = stdout s ++ stdout t := by
  simp [stdout]

theorem stderr_append (s t : List Event) : stderr (s ++ t) = stderr s ++ stderr t := by
  simp [stderr]

theorem calls_append (s t : List Event) : calls (s ++ t) = calls s ++ calls t := by
  simp [calls]

theorem stderr_of_listing (rt : Runtime) :
    ∀ t : List Event, (∀ ev ∈ t, isListing rt ev) → stderr t = []
  | [], _ => rfl
  | ev :: t, h => by
    have ht := stderr_of_listing rt t (fun ev' h' => h ev' (List.mem_cons_of_mem _ h'))
    rcases h ev (List.mem_cons_self _ _) with rfl | rfl <;> simpa [stderr] using ht

theorem stdout_of_listing (rt : Runtime) :
    ∀ t : List Event, (∀ ev ∈ t, isListing rt ev) →
      ∀ l ∈ stdout t, l = [.text rt.ListPlatformsDevices]
  | [], _ => by simp [stdout]
  | ev :: t, h => by
    have ht := stdout_of_listing rt t (fun ev' h' => h ev' (List.mem_cons_of_mem _ h'))
    rcases h ev (List.mem_cons_self _ _) with rfl | rfl
    · simpa [stdout] using ht
    · intro l hl
      simp only [stdout, List.filterMap_cons, List.mem_cons] at hl
      rcases hl with rfl | hl
      · rfl
      · exact ht l hl

theorem calls_of_listing (rt : Runtime) :
    ∀ t : List Event, (∀ ev ∈ t, isListing rt ev) → ∀ c ∈ calls t, c = .ListPlatformsDevices
  | [], _ => by simp [calls]
  | ev :: t, h => by
    have ht := calls_of_listing rt t (fun ev' h' => h ev' (List.mem_cons_of_mem _ h'))
    rcases h ev (List.mem_cons_self _ _) with rfl | rfl
    · intro c hc
      simp only [calls, List.filterMap_cons, List.mem_cons] at hc
      rcases hc with rfl | hc
      · rfl
      · exact ht c hc
    · simpa [calls] using ht

theorem stdout_successTrace (rt : Runtime) (p d : Int) :
    stdout (successTrace rt p d) = successLines rt p d := by
  simp [successTrace, successLines, pipelineCalls, stdout]

theorem stderr_successTrace (rt : Runtime) (p d : Int) : stderr (successTrace rt p d) = [] := by
  simp [successTrace, successLines, pipelineCalls, stderr]

theorem main_of_help (rt : Runtime) (argv : List String)
    (h : (argLoop rt argv.tail { platform_id := 0, device_id := 0 }).sel = none) :
    main rt argv =
      { exit := 0, trace := (argLoop rt argv.tail { platform_id := 0, device_id := 0 }).trace,
        outcome := .help } := by
  simp [main, h]

/-- A run that ends at the end of the `try` block: every call of the pipeline succeeded
and the trace is the one of the option loop followed by `successTrace`. -/
theorem main_of_success (rt : Runtime) (argv : List String)
    (hs : (main rt argv).outcome = .success) :
    ∃ sel, (argLoop rt argv.tail { platform_id := 0, device_id := 0 }).sel = some sel ∧
      (∀ c ∈ pipelineCalls sel.platform_id sel.device_id, rt.fails c = none) ∧
      (main rt argv).trace =
        (argLoop rt argv.tail { platform_id := 0, device_id := 0 }).trace ++
          successTrace rt sel.platform_id sel.device_id := by
  unfold main at hs ⊢
  cases hsel : (argLoop rt argv.tail { platform_id := 0, device_id := 0 }).sel with
  | none => simp [hsel] at hs
  | some sel =>
    simp only [hsel] at hs ⊢
    have hok := hostBody_ok rt sel.platform_id sel.device_id
      { trace := (argLoop rt argv.tail { platform_id := 0, device_id := 0 }).trace,
        dev := fun _ => [] }
    rcases hb : hostBody rt sel.platform_id sel.device_id
      { trace := (argLoop rt argv.tail { platform_id := 0, device_id := 0 }).trace,
        dev := fun _ => [] } with ⟨r, w'⟩
    rw [hb] at hs hok
    cases r with
    | error e => simp at hs
    | ok u =>
      obtain ⟨h1, h2⟩ := hok rfl
      exact ⟨sel, rfl, h1, h2⟩

/-- The first event of the `try` block is the call of `GetContext`. -/
theorem call_first {β : Type} (rt : Runtime) (c : Call) (f : Unit → Exec β)
    (hf : Grows (f ())) (w : World) :
    ∃ t, ((call rt c >>= f) w).2.trace = w.trace ++ .call c :: t := by
  simp only [exec_bind, Exec.bind, call]
  cases rt.fails c with
  | some e => exact ⟨[], rfl⟩
  | none =>
    obtain ⟨t, ht⟩ := hf { w with trace := w.trace ++ [.call c] }
    exact ⟨t, by simp only [ht, List.append_assoc, List.singleton_append]⟩

theorem hostBody_first (rt : Runtime) (p d : Int) (w : World) :
    ∃ t, (hostBody rt p d w).2.trace = w.trace ++ .call (.GetContext p d) :: t := by
  unfold hostBody
  apply call_first
  repeat' first
    | exact grows_pure _
    | exact grows_throw _
    | exact grows_call _ _
    | exact grows_out _
    | exact grows_createKernel _ _
    | exact grows_setArg _ _ _ _
    | exact grows_createBuffer _ _ _
    | exact grows_enqueueWriteBuffer _ _ _ _ _ _
    | exact grows_enqueueReadBuffer _ _ _ _ _ _
    | exact grows_enqueueNDRangeKernel _ _ _
    | apply grows_tryCatch
    | apply grows_bind
    | intro _

/-- A run that enters the `try` block calls `GetContext` with the parsed selection right
after the events of the option loop. -/
theorem main_calls_GetContext (rt : Runtime) (argv : List String) (sel : Selection)
    (hsel : (argLoop rt argv.tail { platform_id := 0, device_id := 0 }).sel = some sel) :
    ∃ t, (main rt argv).trace =
      (argLoop rt argv.tail { platform_id := 0, device_id := 0 }).trace ++
        .call (.GetContext sel.platform_id sel.device_id) :: t := by
  unfold main
  simp only [hsel]
  obtain ⟨t, ht⟩ := hostBody_first rt sel.platform_id sel.device_id
    { trace := (argLoop rt argv.tail { platform_id := 0, device_id := 0 }).trace,
      dev := fun _ => [] }
  rcases hb : hostBody rt sel.platform_id sel.device_id
    { trace := (argLoop rt argv.tail { platform_id := 0, device_id := 0 }).trace,
      dev := fun _ => [] } with ⟨r, w'⟩
  rw [hb] at ht
  cases r with
  | ok u => exact ⟨t, ht⟩
  | error e =>
    refine ⟨t ++ [handler rt e], ?_⟩
    have hw : w'.trace = _ := ht
    simp only [hw, List.append_assoc, List.cons_append]

/-- C1 (amended): `main` returns exit status 0 on every run: after `-h`, at the end of the
`try` block, and also after the top-level handler has caught an error. -/
theorem main_exit_status_zero (rt : Runtime) (argv : List String) : (main rt argv).exit = 0 := by
  simp only [main]
  split
  · rfl
  · split <;> rfl

/-- C1 (counterexample): with a runtime whose device resolution throws, the handler of
`main` catches the error and the exit status is not non-zero. -/
theorem exit_status_after_caught_error :
    (main (rtFailing (fun c => c = .GetContext 0 0) ⟨"clGetPlatformIDs", -1001⟩)
        ["Tutorial 1.exe"]).outcome = .caught ⟨"clGetPlatformIDs", -1001⟩ ∧
      ¬ (main (rtFailing (fun c => c = .GetContext 0 0) ⟨"clGetPlatformIDs", -1001⟩)
        ["Tutorial 1.exe"]).exit ≠ 0 := by
  decide

/-- C7: when `GetContext` throws on the parsed selection, standard error holds exactly
the line `ERROR: <what>, <kind>`, and standard output holds nothing but the listings of
`-l`: no banner, no vector line, no profiling line (nothing at all without `-l`). -/
theorem resolution_failure_report (rt : Runtime) (argv : List String) (sel : Selection)
    (e : ClError)
    (hsel : (argLoop rt argv.tail { platform_id := 0, device_id := 0 }).sel = some sel)
    (hfail : rt.fails (.GetContext sel.platform_id sel.device_id) = some e) :
    stderr (main rt argv).trace =
        [[.text "ERROR: ", .text e.what, .text ", ", .text (rt.getErrorString e.err)]] ∧
      (∀ l ∈ stdout (main rt argv).trace, l = [.text rt.ListPlatformsDevices]) ∧
      (∀ l ∈ successLines rt sel.platform_id sel.device_id, l ∉ stdout (main rt argv).trace) ∧
      ("-l" ∉ argv.tail → stdout (main rt argv).trace = []) := by
  obtain ⟨hlist, hnone⟩ := argLoop_trace rt argv.tail _ sel hsel
  have htr : (main rt argv).trace =
      (argLoop rt argv.tail { platform_id := 0, device_id := 0 }).trace ++
        [.call (.GetContext sel.platform_id sel.device_id), handler rt e] := by
    simp [main, hsel, hostBody, exec_bind, Exec.bind, call, hfail]
  have hout : stdout (main rt argv).trace =
      stdout (argLoop rt argv.tail { platform_id := 0, device_id := 0 }).trace := by
    rw [htr, stdout_append]
    simp [stdout, handler]
  refine ⟨?_, ?_, ?_, ?_⟩
  · rw [htr, stderr_append, stderr_of_listing rt _ hlist]
    simp [stderr, handler]
  · rw [hout]
    exact stdout_of_listing rt _ hlist
  · intro l hl hmem
    rw [hout] at hmem
    have := stdout_of_listing rt _ hlist l hmem
    subst this
    simp [successLines, banner] at hl
  · intro hl
    rw [hout, hnone hl]
    rfl

/-- C7 (witness): `-p 9999` on a runtime that has no platform 9999. -/
theorem resolution_failure_report_witness :
    (argLoop (rtFailing (fun c => c = .GetContext 9999 0) ⟨"GetContext", -32⟩)
        (["Tutorial 1.exe", "-p", "9999"] : List String).tail
        { platform_id := 0, device_id := 0 }).sel = some { platform_id := 9999, device_id := 0 } ∧
      (rtFailing (fun c => c = .GetContext 9999 0) ⟨"GetContext", -32⟩).fails
        (.GetContext 9999 0) = some ⟨"GetContext", -32⟩ ∧
      stderr (main (rtFailing (fun c => c = .GetContext 9999 0) ⟨"GetContext", -32⟩)
          ["Tutorial 1.exe", "-p", "9999"]).trace =
        [[.text "ERROR: ", .text "GetContext", .text ", ", .text "UNKNOWN"]] ∧
      stdout (main (rtFailing (fun c => c = .GetContext 9999 0) ⟨"GetContext", -32⟩)
          ["Tutorial 1.exe", "-p", "9999"]).trace = [] :=
  ⟨by decide, by decide,
    (resolution_failure_report (rtFailing (fun c => c = .GetContext 9999 0) ⟨"GetContext", -32⟩)
      ["Tutorial 1.exe", "-p", "9999"] { platform_id := 9999, device_id := 0 }
      ⟨"GetContext", -32⟩ (by decide) (by decide)).1,
    (resolution_failure_report (rtFailing (fun c => c = .GetContext 9999 0) ⟨"GetContext", -32⟩)
      ["Tutorial 1.exe", "-p", "9999"] { platform_id := 9999, device_id := 0 }
      ⟨"GetContext", -32⟩ (by decide) (by decide)).2.2.2 (by decide)⟩

/-- C8: when `program.build()` throws (the calls before it having succeeded), the run
writes the banner, then the three lines `Build Status`, `Build Options`, `Build Log` on
standard output in that order, then the single `ERROR:` line on standard error, and
ends: no buffer is created and nothing is submitted to the command queue. -/
theorem build_failure_report (rt : Runtime) (argv : List String) (sel : Selection) (e : ClError)
    (hsel : (argLoop rt argv.tail { platform_id := 0, device_id := 0 }).sel = some sel)
    (h1 : rt.fails (.GetContext sel.platform_id sel.device_id) = none)
    (h2 : rt.fails (.createQueue true) = none)
    (h3 : rt.fails (.AddSources "kernels/my_kernels.cl") = none)
    (h4 : rt.fails .createProgram = none)
    (hbuild : rt.fails .build = some e) :
    (main rt argv).trace =
        (argLoop rt argv.tail { platform_id := 0, device_id := 0 }).trace ++
          [ .call (.GetContext sel.platform_id sel.device_id),
            .out (banner rt sel.platform_id sel.device_id),
            .call (.createQueue true),
            .call (.AddSources "kernels/my_kernels.cl"),
            .call .createProgram,
            .call .build,
            .out [.text "Build Status: ", .num rt.buildStatus],
            .out [.text "Build Options:\t", .text rt.buildOptions],
            .out [.text "Build Log:\t ", .text rt.buildLog],
            .err [.text "ERROR: ", .text e.what, .text ", ", .text (rt.getErrorString e.err)] ] ∧
      stderr (main rt argv).trace =
        [[.text "ERROR: ", .text e.what, .text ", ", .text (rt.getErrorString e.err)]] ∧
      submitted (main rt argv).trace = [] ∧
      (∀ b n, Call.createBuffer b n ∉ calls (main rt argv).trace) := by
  obtain ⟨hlist, -⟩ := argLoop_trace rt argv.tail _ sel hsel
  have htr : (main rt argv).trace =
      (argLoop rt argv.tail { platform_id := 0, device_id := 0 }).trace ++
        [ .call (.GetContext sel.platform_id sel.device_id),
          .out (banner rt sel.platform_id sel.device_id),
          .call (.createQueue true),
          .call (.AddSources "kernels/my_kernels.cl"),
          .call .createProgram,
          .call .build,
          .out [.text "Build Status: ", .num rt.buildStatus],
          .out [.text "Build Options:\t", .text rt.buildOptions],
          .out [.text "Build Log:\t ", .text rt.buildLog],
          .err [.text "ERROR: ", .text e.what, .text ", ", .text (rt.getErrorString e.err)] ] := by
    simp [main, hsel, hostBody, exec_bind, Exec.bind, exec_tryCatch, Exec.tryCatch, exec_throw,
      call, out, emit, h1, h2, h3, h4, hbuild, handler, banner]
  have hcalls : ∀ c ∈ calls (argLoop rt argv.tail { platform_id := 0, device_id := 0 }).trace,
      c = .ListPlatformsDevices := calls_of_listing rt _ hlist
  refine ⟨htr, ?_, ?_, ?_⟩
  · rw [htr, stderr_append, stderr_of_listing rt _ hlist]
    simp [stderr]
  · rw [htr, submitted, calls_append, List.filter_append]
    have : (calls (argLoop rt argv.tail { platform_id := 0, device_id := 0 }).trace).filter
        Call.isSubmission = [] := by
      rw [List.filter_eq_nil_iff]
      intro c hc
      rw [hcalls c hc]
      simp [Call.isSubmission]
    rw [this]
    simp [calls, Call.isSubmission]
  · intro b n hmem
    rw [htr, calls_append, List.mem_append] at hmem
    rcases hmem with hmem | hmem
    · have := hcalls _ hmem
      cases this
    · simp [calls] at hmem

/-- C8 (witness): a device source that does not compile. -/
theorem build_failure_report_witness :
    (argLoop rtBadSource (["Tutorial 1.exe"] : List String).tail
        { platform_id := 0, device_id := 0 }).sel = some { platform_id := 0, device_id := 0 } ∧
      rtBadSource.fails .build = some ⟨"clBuildProgram", -11⟩ ∧
      stdout (main rtBadSource ["Tutorial 1.exe"]).trace =
        [ [.text "Runinng on ", .text "P", .text ", ", .text "D"],
          [.text "Build Status: ", .num (-2)],
          [.text "Build Options:\t", .text ""],
          [.text "Build Log:\t ", .text "error: expected identifier"] ] ∧
      stderr (main rtBadSource ["Tutorial 1.exe"]).trace =
        [[.text "ERROR: ", .text "clBuildProgram", .text ", ", .text "UNKNOWN"]] :=
  ⟨by decide, by decide,
    by
      rw [(build_failure_report rtBadSource ["Tutorial 1.exe"]
        { platform_id := 0, device_id := 0 } ⟨"clBuildProgram", -11⟩ (by decide) (by decide)
        (by decide) (by decide) (by decide) (by decide)).1]
      decide,
    (build_failure_report rtBadSource ["Tutorial 1.exe"]
      { platform_id := 0, device_id := 0 } ⟨"clBuildProgram", -11⟩ (by decide) (by decide)
      (by decide) (by decide) (by decide) (by decide)).2.1⟩

/-- C5 (amended): on a run that completes the `try` block and has no `-l`, standard
output is exactly eight lines: the banner ending in `<platform>, <device>`, the lines
`A = `, `B = `, `C = ` with the three vectors, and four lines `<label> took <ns>ns to
complete.` labelled `Copying buffer A to device memory`, `Copying buffer B to device
memory`, `Reading buffer C` and `Kernel`, in that order. -/
theorem stdout_of_success (rt : Runtime) (argv : List String)
    (hs : (main rt argv).outcome = .success) (hl : "-l" ∉ argv.tail) :
    ∃ sel head,
      (argLoop rt argv.tail { platform_id := 0, device_id := 0 }).sel = some sel ∧
      stdout (main rt argv).trace =
        [ [.text head, .text (rt.GetPlatformName sel.platform_id), .text ", ",
            .text (rt.GetDeviceName sel.platform_id sel.device_id)],
          [.text "A = ", .vec hostVectors.1],
          [.text "B = ", .vec hostVectors.2],
          [.text "C = ", .vec (deviceC rt)],
          [.text "Copying buffer A to device memory took ",
            .num (elapsed rt (.enqueueWriteBuffer .A true 0 400 hostVectors.1)),
            .text "ns to complete."],
          [.text "Copying buffer B to device memory took ",
            .num (elapsed rt (.enqueueWriteBuffer .B true 0 400 hostVectors.2)),
            .text "ns to complete."],
          [.text "Reading buffer C took ",
            .num (elapsed rt (.enqueueReadBuffer .C true 0 400)), .text "ns to complete."],
          [.text "Kernel took ",
            .num (elapsed rt (.enqueueNDRangeKernel
              { name := "multadd", args := [(0, .A), (1, .B), (2, .C)] } 100)),
            .text "ns to complete."] ] := by
  obtain ⟨sel, hsel, -, htr⟩ := main_of_success rt argv hs
  obtain ⟨-, hnone⟩ := argLoop_trace rt argv.tail _ sel hsel
  refine ⟨sel, "Runinng on ", hsel, ?_⟩
  rw [htr, hnone hl, List.nil_append, stdout_successTrace]
  rfl

/-- C5 (witness): the run without options on a runtime where every call succeeds. -/
theorem stdout_of_success_witness :
    (main rtOk ["Tutorial 1.exe"]).outcome = .success ∧
      "-l" ∉ (["Tutorial 1.exe"] : List String).tail ∧
      ∃ sel head,
        (argLoop rtOk (["Tutorial 1.exe"] : List String).tail
          { platform_id := 0, device_id := 0 }).sel = some sel ∧
        stdout (main rtOk ["Tutorial 1.exe"]).trace =
          [ [.text head, .text (rtOk.GetPlatformName sel.platform_id), .text ", ",
              .text (rtOk.GetDeviceName sel.platform_id sel.device_id)],
            [.text "A = ", .vec hostVectors.1],
            [.text "B = ", .vec hostVectors.2],
            [.text "C = ", .vec (deviceC rtOk)],
            [.text "Copying buffer A to device memory took ",
              .num (elapsed rtOk (.enqueueWriteBuffer .A true 0 400 hostVectors.1)),
              .text "ns to complete."],
            [.text "Copying buffer B to device memory took ",
              .num (elapsed rtOk (.enqueueWriteBuffer .B true 0 400 hostVectors.2)),
              .text "ns to complete."],
            [.text "Reading buffer C took ",
              .num (elapsed rtOk (.enqueueReadBuffer .C true 0 400)), .text "ns to complete."],
            [.text "Kernel took ",
              .num (elapsed rtOk (.enqueueNDRangeKernel
                { name := "multadd", args := [(0, .A), (1, .B), (2, .C)] } 100)),
              .text "ns to complete."] ] :=
  ⟨by decide, by decide, stdout_of_success rtOk ["Tutorial 1.exe"] (by decide) (by decide)⟩

theorem renderLine_copyA :
    renderLine ((stdout (main rtOk ["Tutorial 1.exe"]).trace).getD 4 []) =
      "Copying buffer A to device memory took 5ns to complete." := by
  decide

/-- C5 (counterexample): on the run without options of a runtime where every call
succeeds, the first profiling line reads `Copying buffer A to device memory took 5ns to
complete.`, which is not `copy A took <ns> ns to complete.` for any `ns`. -/
theorem profiling_label_differs :
    (main rtOk ["Tutorial 1.exe"]).outcome = .success ∧
      "-l" ∉ (["Tutorial 1.exe"] : List String) ∧
      ¬ ∃ ns : Nat, renderLine ((stdout (main rtOk ["Tutorial 1.exe"]).trace).getD 4 []) =
        specProfilingLine "copy A" ns := by
  refine ⟨by decide, by decide, ?_⟩
  rintro ⟨ns, h⟩
  rw [renderLine_copyA] at h
  have h' := congrArg (fun s : String => s.data.head?) h
  simp [specProfilingLine, String.data_append] at h'

theorem hostVectors_fst_eq : hostVectors.1 = (List.range 100).map (fun i : Nat => (i : Int)) := by
  decide

theorem hostVectors_snd_eq :
    hostVectors.2 = (List.range 100).map (fun i : Nat => ((i : Int) + 1) % 3) := by
  decide

theorem getElem?_map_range (f : Nat → Int) (n i : Nat) (h : i < n) :
    ((List.range n).map f)[i]? = some (f i) := by
  simp [List.getElem?_map, List.getElem?_range h]

theorem wrap32_of_range (v : Int) (h1 : INT_MIN ≤ v) (h2 : v ≤ INT_MAX) : wrap32 v = v := by
  unfold wrap32
  unfold INT_MIN at h1
  unfold INT_MAX at h2
  omega

/-- On the default dataset the product and the sum of `multadd` stay in `int`. -/
theorem multadd_bounds (i : Nat) (h : i < 100) :
    INT_MIN ≤ (i : Int) * (((i : Int) + 1) % 3) ∧ (i : Int) * (((i : Int) + 1) % 3) ≤ INT_MAX ∧
      INT_MIN ≤ (i : Int) * (((i : Int) + 1) % 3) + ((i : Int) + 1) % 3 ∧
      (i : Int) * (((i : Int) + 1) % 3) + ((i : Int) + 1) % 3 ≤ INT_MAX := by
  have hm : ((i : Int) + 1) % 3 = 0 ∨ ((i : Int) + 1) % 3 = 1 ∨ ((i : Int) + 1) % 3 = 2 := by
    omega
  unfold INT_MIN INT_MAX
  rcases hm with hm | hm | hm <;> rw [hm] <;> omega

theorem deviceC_getElem? (rt : Runtime) (hk : rt.kernel "multadd" = multaddRef) (i : Nat)
    (h : i < 100) :
    (deviceC rt)[i]? = some ((i : Int) * (((i : Int) + 1) % 3) + ((i : Int) + 1) % 3) := by
  obtain ⟨b1, b2, b3, b4⟩ := multadd_bounds i h
  unfold deviceC
  rw [getElem?_map_range _ _ _ h, hk]
  have ha : hostVectors.1.getD i 0 = (i : Int) := by
    rw [List.getD_eq_getElem?_getD, hostVectors_fst_eq, getElem?_map_range _ _ _ h]
    rfl
  have hb : hostVectors.2.getD i 0 = ((i : Int) + 1) % 3 := by
    rw [List.getD_eq_getElem?_getD, hostVectors_snd_eq, getElem?_map_range _ _ _ h]
    rfl
  rw [ha, hb, multaddRef, wrap32_of_range _ b1 b2, wrap32_of_range _ b3 b4]

theorem deviceC_length (rt : Runtime) : (deviceC rt).length = 100 := by
  simp [deviceC]

/-- C2: on a run that completes the `try` block with the reference `multadd`, the
vectors printed as `A = `, `B = `, `C = ` have 100 elements each, with `A[i] = i`,
`B[i] = (i + 1) mod 3` and `C[i] = i * ((i + 1) mod 3) + ((i + 1) mod 3)`, and neither
the product nor the sum leaves the range of a 32-bit signed integer. -/
theorem multadd_default_dataset (rt : Runtime) (argv : List String)
    (hk : rt.kernel "multadd" = multaddRef) (hs : (main rt argv).outcome = .success) :
    ∃ (A B C : List Int) (before after : List (List Item)),
      stdout (main rt argv).trace =
        before ++ [[.text "A = ", .vec A], [.text "B = ", .vec B], [.text "C = ", .vec C]] ++
          after ∧
      A.length = 100 ∧ B.length = 100 ∧ C.length = 100 ∧
      ∀ i : Nat, i < 100 →
        A[i]? = some (i : Int) ∧ B[i]? = some (((i : Int) + 1) % 3) ∧
        C[i]? = some ((i : Int) * (((i : Int) + 1) % 3) + ((i : Int) + 1) % 3) ∧
        INT_MIN ≤ (i : Int) * (((i : Int) + 1) % 3) ∧
        (i : Int) * (((i : Int) + 1) % 3) ≤ INT_MAX ∧
        INT_MIN ≤ (i : Int) * (((i : Int) + 1) % 3) + ((i : Int) + 1) % 3 ∧
        (i : Int) * (((i : Int) + 1) % 3) + ((i : Int) + 1) % 3 ≤ INT_MAX := by
  obtain ⟨sel, -, -, htr⟩ := main_of_success rt argv hs
  refine ⟨hostVectors.1, hostVectors.2, deviceC rt,
    stdout (argLoop rt argv.tail { platform_id := 0, device_id := 0 }).trace ++
      [banner rt sel.platform_id sel.device_id],
    (successLines rt sel.platform_id sel.device_id).drop 4, ?_, hostVectors_fst_length,
    hostVectors_snd_length, deviceC_length rt, ?_⟩
  · rw [htr, stdout_append, stdout_successTrace]
    simp [successLines]
  · intro i hi
    refine ⟨?_, ?_, deviceC_getElem? rt hk i hi, multadd_bounds i hi⟩
    · rw [hostVectors_fst_eq, getElem?_map_range _ _ _ hi]
    · rw [hostVectors_snd_eq, getElem?_map_range _ _ _ hi]

/-- C2 (witness): the run without options on the reference runtime. -/
theorem multadd_default_dataset_witness :
    rtOk.kernel "multadd" = multaddRef ∧ (main rtOk ["Tutorial 1.exe"]).outcome = .success ∧
      ∃ (A B C : List Int) (before after : List (List Item)),
        stdout (main rtOk ["Tutorial 1.exe"]).trace =
          before ++ [[.text "A = ", .vec A], [.text "B = ", .vec B], [.text "C = ", .vec C]] ++
            after ∧
        A.length = 100 ∧ B.length = 100 ∧ C.length = 100 ∧
        ∀ i : Nat, i < 100 →
          A[i]? = some (i : Int) ∧ B[i]? = some (((i : Int) + 1) % 3) ∧
          C[i]? = some ((i : Int) * (((i : Int) + 1) % 3) + ((i : Int) + 1) % 3) ∧
          INT_MIN ≤ (i : Int) * (((i : Int) + 1) % 3) ∧
          (i : Int) * (((i : Int) + 1) % 3) ≤ INT_MAX ∧
          INT_MIN ≤ (i : Int) * (((i : Int) + 1) % 3) + ((i : Int) + 1) % 3 ∧
          (i : Int) * (((i : Int) + 1) % 3) + ((i : Int) + 1) % 3 ≤ INT_MAX :=
  ⟨rfl, by decide, multadd_default_dataset rtOk ["Tutorial 1.exe"] rfl (by decide)⟩

/-- C3 (amended): on a run that completes the `try` block with the reference `multadd`,
the vector printed as `C = ` has `C[0] = 1`, `C[1] = 4`, `C[2] = 0`, `C[3] = 4`,
`C[4] = 10` and `C[99] = 100`. -/
theorem multadd_sample_values (rt : Runtime) (argv : List String)
    (hk : rt.kernel "multadd" = multaddRef) (hs : (main rt argv).outcome = .success) :
    ∃ (C : List Int) (before after : List (List Item)),
      stdout (main rt argv).trace = before ++ [[.text "C = ", .vec C]] ++ after ∧
      C[0]? = some 1 ∧ C[1]? = some 4 ∧ C[2]? = some 0 ∧ C[3]? = some 4 ∧ C[4]? = some 10 ∧
      C[99]? = some 100 := by
  obtain ⟨sel, -, -, htr⟩ := main_of_success rt argv hs
  refine ⟨deviceC rt,
    stdout (argLoop rt argv.tail { platform_id := 0, device_id := 0 }).trace ++
      (successLines rt sel.platform_id sel.device_id).take 3,
    (successLines rt sel.platform_id sel.device_id).drop 4, ?_, ?_⟩
  · rw [htr, stdout_append, stdout_successTrace]
    simp [successLines]
  · refine ⟨?_, ?_, ?_, ?_, ?_, ?_⟩ <;>
      (rw [deviceC_getElem? rt hk _ (by decide)]; decide)

/-- C3 (witness): the run without options on the reference runtime. -/
theorem multadd_sample_values_witness :
    rtOk.kernel "multadd" = multaddRef ∧ (main rtOk ["Tutorial 1.exe"]).outcome = .success ∧
      ∃ (C : List Int) (before after : List (List Item)),
        stdout (main rtOk ["Tutorial 1.exe"]).trace = before ++ [[.text "C = ", .vec C]] ++ after ∧
        C[0]? = some 1 ∧ C[1]? = some 4 ∧ C[2]? = some 0 ∧ C[3]? = some 4 ∧ C[4]? = some 10 ∧
        C[99]? = some 100 :=
  ⟨rfl, by decide, multadd_sample_values rtOk ["Tutorial 1.exe"] rfl (by decide)⟩

set_option maxRecDepth 100000 in
/-- C3 (counterexample): on the run without options of the reference runtime the fourth
line of standard output is `C = ` with a vector whose elements 3 and 99 are 4 and 100,
so the values `C[3] = 1` and `C[99] = 199` do not hold. -/
theorem sample_values_differ :
    rtOk.kernel "multadd" = multaddRef ∧
      ∃ C : List Int,
        (stdout (main rtOk ["Tutorial 1.exe"]).trace)[3]? = some [.text "C = ", .vec C] ∧
        C[3]? = some 4 ∧ C[99]? = some 100 ∧
        ¬ (C[0]? = some 1 ∧ C[1]? = some 4 ∧ C[2]? = some 0 ∧ C[3]? = some 1 ∧
          C[4]? = some 10 ∧ C[99]? = some 199) :=
  ⟨rfl, deviceC rtOk, by decide, by decide, by decide, by decide⟩

theorem clampInt_range (v : Int) : INT_MIN ≤ clampInt v ∧ clampInt v ≤ INT_MAX := by
  unfold clampInt INT_MIN INT_MAX
  split
  · omega
  · split <;> omega

theorem atoi_range (s : String) : INT_MIN ≤ atoi s ∧ atoi s ≤ INT_MAX := by
  unfold atoi
  split <;> exact clampInt_range _

/-- Each index left by the option loop is the one it started from or the `atoi` value of
an argument. -/
theorem argLoop_sel (rt : Runtime) :
    ∀ (args : List String) (sel s : Selection), (argLoop rt args sel).sel = some s →
      (s.platform_id = sel.platform_id ∨ ∃ v ∈ args, s.platform_id = atoi v) ∧
        (s.device_id = sel.device_id ∨ ∃ v ∈ args, s.device_id = atoi v)
  | [], sel, s, h => by
    simp [argLoop_nil] at h
    subst h
    exact ⟨Or.inl rfl, Or.inl rfl⟩
  | [a], sel, s, h => by
    rw [argLoop_single] at h
    by_cases hl : a = "-l"
    · simp [hl, listThen, argLoop_nil] at h
      subst h
      exact ⟨Or.inl rfl, Or.inl rfl⟩
    · by_cases hh : a = "-h"
      · simp [hl, hh] at h
      · simp [hl, hh, argLoop_nil] at h
        subst h
        exact ⟨Or.inl rfl, Or.inl rfl⟩
  | a :: v :: rest, sel, s, h => by
    rw [argLoop_cons_cons] at h
    by_cases hp : a = "-p"
    · simp only [hp, if_true] at h
      obtain ⟨h1, h2⟩ := argLoop_sel rt rest _ s h
      constructor
      · rcases h1 with h1 | ⟨u, hu, h1⟩
        · exact Or.inr ⟨v, by simp, h1⟩
        · exact Or.inr ⟨u, by simp [hu], h1⟩
      · rcases h2 with h2 | ⟨u, hu, h2⟩
        · exact Or.inl h2
        · exact Or.inr ⟨u, by simp [hu], h2⟩
    · by_cases hd : a = "-d"
      · simp only [hp, hd, if_true, if_false] at h
        obtain ⟨h1, h2⟩ := argLoop_sel rt rest _ s h
        constructor
        · rcases h1 with h1 | ⟨u, hu, h1⟩
          · exact Or.inl h1
          · exact Or.inr ⟨u, by simp [hu], h1⟩
        · rcases h2 with h2 | ⟨u, hu, h2⟩
          · exact Or.inr ⟨v, by simp, h2⟩
          · exact Or.inr ⟨u, by simp [hu], h2⟩
      · have hrest : (argLoop rt (v :: rest) sel).sel = some s := by
          by_cases hl : a = "-l"
          · simpa [hp, hd, hl, listThen] using h
          · by_cases hh : a = "-h"
            · simp [hp, hd, hl, hh] at h
            · simpa [hp, hd, hl, hh] using h
        obtain ⟨h1, h2⟩ := argLoop_sel rt (v :: rest) sel s hrest
        constructor
        · rcases h1 with h1 | ⟨u, hu, h1⟩
          · exact Or.inl h1
          · exact Or.inr ⟨u, List.mem_cons_of_mem _ hu, h1⟩
        · rcases h2 with h2 | ⟨u, hu, h2⟩
          · exact Or.inl h2
          · exact Or.inr ⟨u, List.mem_cons_of_mem _ hu, h2⟩

/-- C6 (amended): the platform and device index that `main` hands to `GetContext` are
32-bit signed integers, each 0 or the `atoi` value of an argument; they can be negative,
and are non-negative when no argument has a negative `atoi` value. -/
theorem selection_values (rt : Runtime) (argv : List String) (sel : Selection)
    (hsel : (argLoop rt argv.tail { platform_id := 0, device_id := 0 }).sel = some sel) :
    (∃ t, (main rt argv).trace =
        (argLoop rt argv.tail { platform_id := 0, device_id := 0 }).trace ++
          .call (.GetContext sel.platform_id sel.device_id) :: t) ∧
      (sel.platform_id = 0 ∨ ∃ v ∈ argv.tail, sel.platform_id = atoi v) ∧
      (sel.device_id = 0 ∨ ∃ v ∈ argv.tail, sel.device_id = atoi v) ∧
      INT_MIN ≤ sel.platform_id ∧ sel.platform_id ≤ INT_MAX ∧
      INT_MIN ≤ sel.device_id ∧ sel.device_id ≤ INT_MAX ∧
      ((∀ v ∈ argv.tail, 0 ≤ atoi v) → 0 ≤ sel.platform_id ∧ 0 ≤ sel.device_id) := by
  obtain ⟨h1, h2⟩ := argLoop_sel rt argv.tail _ sel hsel
  have hz : INT_MIN ≤ 0 ∧ (0 : Int) ≤ INT_MAX := by decide
  have r1 : INT_MIN ≤ sel.platform_id ∧ sel.platform_id ≤ INT_MAX := by
    rcases h1 with h | ⟨v, -, h⟩
    · rw [h]; exact hz
    · rw [h]; exact atoi_range v
  have r2 : INT_MIN ≤ sel.device_id ∧ sel.device_id ≤ INT_MAX := by
    rcases h2 with h | ⟨v, -, h⟩
    · rw [h]; exact hz
    · rw [h]; exact atoi_range v
  refine ⟨main_calls_GetContext rt argv sel hsel, h1, h2, r1.1, r1.2, r2.1, r2.2, ?_⟩
  intro hpos
  constructor
  · rcases h1 with h | ⟨v, hv, h⟩
    · rw [h]
    · rw [h]; exact hpos v hv
  · rcases h2 with h | ⟨v, hv, h⟩
    · rw [h]
    · rw [h]; exact hpos v hv

/-- C6 (witness): `-p 1 -d 2`. -/
theorem selection_values_witness :
    (argLoop rtOk (["Tutorial 1.exe", "-p", "1", "-d", "2"] : List String).tail
        { platform_id := 0, device_id := 0 }).sel = some { platform_id := 1, device_id := 2 } ∧
      ((1 : Int) = 0 ∨
        ∃ v ∈ (["Tutorial 1.exe", "-p", "1", "-d", "2"] : List String).tail, (1 : Int) = atoi v) ∧
      INT_MIN ≤ (1 : Int) ∧ (2 : Int) ≤ INT_MAX :=
  ⟨by decide,
    (selection_values rtOk ["Tutorial 1.exe", "-p", "1", "-d", "2"]
      { platform_id := 1, device_id := 2 } (by decide)).2.1,
    (selection_values rtOk ["Tutorial 1.exe", "-p", "1", "-d", "2"]
      { platform_id := 1, device_id := 2 } (by decide)).2.2.2.1,
    (selection_values rtOk ["Tutorial 1.exe", "-p", "1", "-d", "2"]
      { platform_id := 1, device_id := 2 } (by decide)).2.2.2.2.2.2.1⟩

/-- C6 (counterexample): `-p -5` makes `main` call `GetContext` with platform index -5. -/
theorem negative_platform_index :
    ∃ sel, (argLoop rtOk (["Tutorial 1.exe", "-p", "-5"] : List String).tail
        { platform_id := 0, device_id := 0 }).sel = some sel ∧
      Event.call (.GetContext sel.platform_id sel.device_id) ∈
        (main rtOk ["Tutorial 1.exe", "-p", "-5"]).trace ∧
      ¬ (0 ≤ sel.platform_id) :=
  ⟨{ platform_id := -5, device_id := 0 }, by decide, by decide, by decide⟩

/-- The events of `k` listings: for each one the call of `ListPlatformsDevices` and the
line on standard output. -/
theorem argLoop_listings (rt : Runtime) :
    ∀ (pre : List String) (sel : Selection), scans pre = true →
      (argLoop rt pre sel).trace =
        (List.replicate (listFlags pre)
          [Event.call .ListPlatformsDevices, Event.out [.text rt.ListPlatformsDevices]]).flatten
  | [], sel, _ => by simp [argLoop_nil, listFlags]
  | [a], sel, h => by
    simp [scans] at h
    obtain ⟨⟨-, -⟩, hh⟩ := h
    by_cases hl : a = "-l"
    · simp [argLoop_single, argLoop_nil, listThen, listFlags, hl]
    · simp [argLoop_single, argLoop_nil, listFlags, hl, hh]
  | a :: v :: rest, sel, h => by
    rw [argLoop_cons_cons]
    by_cases hp : a = "-p"
    · subst hp
      simp [scans] at h
      simpa [listFlags] using argLoop_listings rt rest _ h
    · by_cases hd : a = "-d"
      · subst hd
        simp [scans] at h
        simpa [listFlags] using argLoop_listings rt rest _ h
      · by_cases hh : a = "-h"
        · subst hh
          simp [scans] at h
        · simp [scans, hp, hd, hh] at h
          have ih := argLoop_listings rt (v :: rest) sel h
          by_cases hl : a = "-l"
          · subst hl
            simp [listFlags, listThen, ih, List.replicate_succ]
          · simp [listFlags, hp, hd, hl, hh, ih]

theorem listFlags_cons_cons (a v : String) (rest : List String) :
    listFlags (a :: v :: rest) =
      if a = "-p" then listFlags rest
      else if a = "-d" then listFlags rest
      else if a = "-l" then listFlags (v :: rest) + 1
      else if a = "-h" then 0
      else listFlags (v :: rest) := by
  simp [listFlags]

theorem listFlags_le_count : ∀ pre : List String, listFlags pre ≤ pre.count "-l"
  | [] => by simp [listFlags]
  | [a] => by
    by_cases hl : a = "-l" <;> simp [listFlags, hl]
  | a :: v :: rest => by
    have h1 := listFlags_le_count rest
    have h2 := listFlags_le_count (v :: rest)
    have h3 : rest.count "-l" ≤ (v :: rest).count "-l" := by
      rw [List.count_cons]
      omega
    have h4 : (v :: rest).count "-l" ≤ (a :: v :: rest).count "-l" := by
      rw [List.count_cons (a := "-l") (b := a)]
      omega
    rw [listFlags_cons_cons]
    by_cases hp : a = "-p"
    · rw [if_pos hp]
      omega
    · rw [if_neg hp]
      by_cases hd : a = "-d"
      · rw [if_pos hd]
        omega
      · rw [if_neg hd]
        by_cases hl : a = "-l"
        · rw [if_pos hl]
          have h5 : (a :: v :: rest).count "-l" = (v :: rest).count "-l" + 1 := by
            rw [hl, List.count_cons_self]
          omega
        · rw [if_neg hl]
          by_cases hh : a = "-h"
          · rw [if_pos hh]
            omega
          · rw [if_neg hh]
            omega

/-- C4 (amended): when the option loop meets `-h` as a flag, `main` returns 0 and its
whole trace is: for each `-l` met as a flag before that `-h` (there are `listFlags pre`
of them, at most the number of `-l` in `pre`) one call of `ListPlatformsDevices` followed
by the listing on standard output, then the five lines of the usage block on standard
error, and nothing else.  So standard error holds exactly the usage block, the only
calls to the runtime are those listings, and without a `-l` before the `-h` the runtime
is not contacted at all. -/
theorem help_returns (rt : Runtime) (prog : String) (pre post : List String)
    (hpre : scans pre = true) :
    (main rt (prog :: (pre ++ "-h" :: post))).exit = 0 ∧
      (main rt (prog :: (pre ++ "-h" :: post))).outcome = .help ∧
      (main rt (prog :: (pre ++ "-h" :: post))).trace =
        (List.replicate (listFlags pre)
          [Event.call .ListPlatformsDevices, Event.out [.text rt.ListPlatformsDevices]]).flatten ++
          [ .err [.text "Application usage:"],
            .err [.text "  -p : select platform "],
            .err [.text "  -d : select device"],
            .err [.text "  -l : list all platforms and devices"],
            .err [.text "  -h : print this message"] ] ∧
      stderr (main rt (prog :: (pre ++ "-h" :: post))).trace =
        [ [.text "Application usage:"],
          [.text "  -p : select platform "],
          [.text "  -d : select device"],
          [.text "  -l : list all platforms and devices"],
          [.text "  -h : print this message"] ] ∧
      stdout (main rt (prog :: (pre ++ "-h" :: post))).trace =
        List.replicate (listFlags pre) [.text rt.ListPlatformsDevices] ∧
      calls (main rt (prog :: (pre ++ "-h" :: post))).trace =
        List.replicate (listFlags pre) .ListPlatformsDevices ∧
      listFlags pre ≤ pre.count "-l" ∧
      ("-l" ∉ pre → calls (main rt (prog :: (pre ++ "-h" :: post))).trace = []) := by
  obtain ⟨sel', -, happ⟩ :=
    argLoop_append rt ("-h" :: post) pre { platform_id := 0, device_id := 0 } hpre
  rw [argLoop_help, argLoop_listings rt pre _ hpre] at happ
  have hm := main_of_help rt (prog :: (pre ++ "-h" :: post)) (by rw [List.tail_cons, happ])
  rw [List.tail_cons, happ] at hm
  have hobs : ∀ k : Nat,
      stderr (List.replicate k
        [Event.call .ListPlatformsDevices, Event.out [.text rt.ListPlatformsDevices]]).flatten
          = [] ∧
      stdout (List.replicate k
        [Event.call .ListPlatformsDevices, Event.out [.text rt.ListPlatformsDevices]]).flatten
          = List.replicate k [.text rt.ListPlatformsDevices] ∧
      calls (List.replicate k
        [Event.call .ListPlatformsDevices, Event.out [.text rt.ListPlatformsDevices]]).flatten
          = List.replicate k .ListPlatformsDevices := by
    intro k
    induction k with
    | zero => simp [stderr, stdout, calls]
    | succ k ih =>
      obtain ⟨i1, i2, i3⟩ := ih
      simp only [stderr, stdout, calls] at i1 i2 i3
      simp [List.replicate_succ, stderr, stdout, calls, i1, i2, i3]
  obtain ⟨o1, o2, o3⟩ := hobs (listFlags pre)
  have hcalls : calls (main rt (prog :: (pre ++ "-h" :: post))).trace =
      List.replicate (listFlags pre) .ListPlatformsDevices := by
    rw [hm]
    simp only [calls_append, o3, print_help]
    simp [calls]
  refine ⟨by rw [hm], by rw [hm], by rw [hm]; rfl, ?_, ?_, hcalls, listFlags_le_count pre, ?_⟩
  · rw [hm]
    simp only [stderr_append, o1, print_help]
    simp [stderr]
  · rw [hm]
    simp only [stdout_append, o2, print_help]
    simp [stdout]
  · intro hl
    have h0 : listFlags pre = 0 := by
      have := listFlags_le_count pre
      rw [List.count_eq_zero_of_not_mem hl] at this
      omega
    rw [hcalls, h0]
    rfl

/-- C4 (witness): `-l -p -l -h -l`: the first `-l` is a flag, the second is the value of
`-p`, the third comes after the `-h`. -/
theorem help_returns_witness :
    scans ["-l", "-p", "-l"] = true ∧
      (main rtOk ("Tutorial 1.exe" :: (["-l", "-p", "-l"] ++ "-h" :: ["-l"]))).exit = 0 ∧
      (main rtOk ("Tutorial 1.exe" :: (["-l", "-p", "-l"] ++ "-h" :: ["-l"]))).outcome = .help ∧
      (main rtOk ("Tutorial 1.exe" :: (["-l", "-p", "-l"] ++ "-h" :: ["-l"]))).trace =
        (List.replicate (listFlags ["-l", "-p", "-l"])
          [Event.call .ListPlatformsDevices,
            Event.out [.text rtOk.ListPlatformsDevices]]).flatten ++
          [ .err [.text "Application usage:"],
            .err [.text "  -p : select platform "],
            .err [.text "  -d : select device"],
            .err [.text "  -l : list all platforms and devices"],
            .err [.text "  -h : print this message"] ] ∧
      stderr (main rtOk ("Tutorial 1.exe" :: (["-l", "-p", "-l"] ++ "-h" :: ["-l"]))).trace =
        [ [.text "Application usage:"],
          [.text "  -p : select platform "],
          [.text "  -d : select device"],
          [.text "  -l : list all platforms and devices"],
          [.text "  -h : print this message"] ] ∧
      stdout (main rtOk ("Tutorial 1.exe" :: (["-l", "-p", "-l"] ++ "-h" :: ["-l"]))).trace =
        List.replicate (listFlags ["-l", "-p", "-l"]) [.text rtOk.ListPlatformsDevices] ∧
      calls (main rtOk ("Tutorial 1.exe" :: (["-l", "-p", "-l"] ++ "-h" :: ["-l"]))).trace =
        List.replicate (listFlags ["-l", "-p", "-l"]) .ListPlatformsDevices ∧
      listFlags ["-l", "-p", "-l"] ≤ List.count "-l" ["-l", "-p", "-l"] ∧
      ("-l" ∉ ["-l", "-p", "-l"] →
        calls (main rtOk ("Tutorial 1.exe" :: (["-l", "-p", "-l"] ++ "-h" :: ["-l"]))).trace =
          []) :=
  ⟨by decide, help_returns rtOk "Tutorial 1.exe" ["-l", "-p", "-l"] ["-l"] (by decide)⟩

/-- C4 (counterexample): with `-l -h` the runtime is asked for the listing before the
usage block is printed, and with `-p -h` the `-h` is taken as the value of `-p`: no usage
block is printed and the pipeline runs. -/
theorem help_not_first :
    ("-h" ∈ ["Tutorial 1.exe", "-l", "-h"] ∧
        (main rtOk ["Tutorial 1.exe", "-l", "-h"]).trace =
          [.call .ListPlatformsDevices, .out [.text rtOk.ListPlatformsDevices]] ++ print_help) ∧
      ("-h" ∈ ["Tutorial 1.exe", "-p", "-h"] ∧
        (main rtOk ["Tutorial 1.exe", "-p", "-h"]).outcome = .success ∧
        stderr (main rtOk ["Tutorial 1.exe", "-p", "-h"]).trace = [] ∧
        Call.GetContext 0 0 ∈ calls (main rtOk ["Tutorial 1.exe", "-p", "-h"]).trace) := by
  decide

/-- C10: an argument met as a flag that is not `-l`, not `-h`, and not a `-p` or `-d`
followed by a value is skipped: the loop goes on from the next argument with the same
indices and no event, so the command line without that argument gives the same parse
and the same run (output, calls, exit status, return path). -/
theorem unknown_flag_ignored (rt : Runtime) (prog x : String) (pre post : List String)
    (hpre : scans pre = true) (hx : unrecognised x post = true) :
    (∀ sel, argLoop rt (x :: post) sel = argLoop rt post sel) ∧
      argLoop rt (pre ++ x :: post) { platform_id := 0, device_id := 0 } =
        argLoop rt (pre ++ post) { platform_id := 0, device_id := 0 } ∧
      main rt (prog :: (pre ++ x :: post)) = main rt (prog :: (pre ++ post)) := by
  have hstep : ∀ sel, argLoop rt (x :: post) sel = argLoop rt post sel :=
    fun sel => argLoop_skip rt x post sel hx
  have hloop : argLoop rt (pre ++ x :: post) { platform_id := 0, device_id := 0 } =
      argLoop rt (pre ++ post) { platform_id := 0, device_id := 0 } := by
    obtain ⟨s1, hs1, h1⟩ :=
      argLoop_append rt (x :: post) pre { platform_id := 0, device_id := 0 } hpre
    obtain ⟨s2, hs2, h2⟩ := argLoop_append rt post pre { platform_id := 0, device_id := 0 } hpre
    rw [hs1] at hs2
    cases hs2
    rw [h1, h2, hstep]
  refine ⟨hstep, hloop, ?_⟩
  simp only [main, List.tail_cons, hloop]

/-- C10 (witness): `--verbose` between `-p 1 -l` and `-d 2`. -/
theorem unknown_flag_ignored_witness :
    scans ["-p", "1", "-l"] = true ∧ unrecognised "--verbose" ["-d", "2"] = true ∧
      (∀ sel, argLoop rtOk ("--verbose" :: ["-d", "2"]) sel = argLoop rtOk ["-d", "2"] sel) ∧
      argLoop rtOk (["-p", "1", "-l"] ++ "--verbose" :: ["-d", "2"])
          { platform_id := 0, device_id := 0 } =
        argLoop rtOk (["-p", "1", "-l"] ++ ["-d", "2"]) { platform_id := 0, device_id := 0 } ∧
      main rtOk ("Tutorial 1.exe" :: (["-p", "1", "-l"] ++ "--verbose" :: ["-d", "2"])) =
        main rtOk ("Tutorial 1.exe" :: (["-p", "1", "-l"] ++ ["-d", "2"])) :=
  ⟨by decide, by decide,
    unknown_flag_ignored rtOk "Tutorial 1.exe" "--verbose" ["-p", "1", "-l"] ["-d", "2"]
      (by decide) (by decide)⟩

end Tutorial1
